import Mathlib

/-!
GoogleChats: the WebRTC connection manager and its application wiring.

A shallow embedding of `src/webrtc-manager.js` (class `WebRTCManager`), of the parts
of `src/app.js` (class `GoogleChatsApp`) that are wired to it, and of the `activate` and
`fetch` listeners of `src/service-worker.js`.

Modelling conventions.

* A JavaScript object that the manager owns is a Lean value stored in the manager's
  field; `null` is `none`.
* Everything the manager does to the outside world (a call of a method of a browser
  object, a call of a caller-supplied callback, a console line) is appended to the
  manager's `log`, oldest first.  The log is ghost state: it is never read by the
  embedded code.
* `async` methods run to completion without interleaving; a rejected promise and a
  thrown exception are both `Except.error`.
* The browser objects (`RTCPeerConnection`, `RTCDataChannel`, `MediaStreamTrack`,
  `JSON`, `localStorage`) are not code of this repository.  They are modelled after
  the W3C WebRTC and ECMAScript documents, as far as the embedded methods use them;
  what the platform is free to choose (the text of a generated description, which
  candidates it accepts, the JSON codec) is a parameter.
* The callbacks are application code; a call of one is logged.  `onMessage` and
  `onDisconnect` are modelled as able to throw: the manager wraps the call of the first
  in a `try`, and the call of the second ends `handleDisconnect`, so that what it throws
  leaves `disconnect()`.  `onConnection` and `onError` are called from event handlers
  only; what they throw goes to the event loop and changes nothing in the manager.
-/

namespace GoogleChats

/-! ## Values -/

/-- JavaScript values that `JSON.parse` can produce. -/
inductive Json where
  | null
  | bool (b : Bool)
  | num (n : Int)
  | str (s : String)
  | arr (items : List Json)
  | obj (members : List (String × Json))

/-- Property read `o.key` on a parsed value: the last member with that key wins, a
missing member and a non-object give `none` (JavaScript `undefined`). -/
def Json.get? : Json → String → Option Json
  | .obj members, key => (members.reverse.find? (fun kv => kv.1 == key)).map Prod.snd
  | _, _ => none

/-- The builtin `JSON` object: `parse` answers `none` where JavaScript throws a
`SyntaxError`. -/
structure JSONApi where
  parse : String → Option Json
  stringify : Json → String

/-- Errors a call can end with. -/
inductive JsError where
  | syntaxError
  | invalidStateError
  | operationError
  | typeError
  /-- An exception thrown by a callback of the caller. -/
  | callbackError
  deriving DecidableEq, Repr

/-! ## Browser objects -/

/-- `RTCDataChannel.readyState`. -/
inductive ReadyState where
  | connecting
  | «open»
  | closing
  | closed
  deriving DecidableEq, Repr

/-- An `RTCDataChannel`: its ready state and whether its `close` event is still to be
delivered. -/
structure RTCDataChannel where
  readyState : ReadyState
  closePending : Bool
  deriving DecidableEq, Repr

/-- `RTCDataChannel.close()`: nothing on a closing or closed channel; otherwise the
channel becomes `closing` and its `close` event will be delivered later. -/
def RTCDataChannel.close (dc : RTCDataChannel) : RTCDataChannel :=
  match dc.readyState with
  | .closing => dc
  | .closed => dc
  | _ => { readyState := .closing, closePending := true }

/-- `RTCPeerConnection.signalingState`, for the description types the source uses. -/
inductive SignalingState where
  | stable
  | haveLocalOffer
  | haveRemoteOffer
  deriving DecidableEq, Repr

/-- `RTCSdpType`, for the description types the source uses. -/
inductive SdpType where
  | offer
  | answer
  deriving DecidableEq, Repr

/-- An `RTCSessionDescriptionInit`. -/
structure SessionDescription where
  type : SdpType
  sdp : String
  deriving DecidableEq, Repr

/-- `RTCPeerConnection.iceConnectionState`. -/
inductive IceConnectionState where
  | new
  | checking
  | connected
  | completed
  | failed
  | disconnected
  | closed
  deriving DecidableEq, Repr

/-- A `MediaStreamTrack`, known by an identifier. -/
structure Track where
  id : Nat
  deriving DecidableEq, Repr

/-- An `RTCPeerConnection` that has not been closed. -/
structure RTCPeerConnection where
  signalingState : SignalingState
  localDescription : Option SessionDescription
  remoteDescription : Option SessionDescription
  /-- Remote candidates applied by `addIceCandidate`, oldest first. -/
  candidates : List String
  iceConnectionState : IceConnectionState
  /-- Tracks given to `addTrack`. -/
  senders : List Track
  /-- Number of descriptions `createOffer` and `createAnswer` have produced. -/
  generated : Nat
  deriving DecidableEq, Repr

/-- What the platform chooses. -/
structure Transport where
  /-- Text of the `n`-th description the connection generates. -/
  sdpText : Nat → String
  /-- Whether the connection can apply this remote description text. -/
  acceptsSdp : String → Bool
  /-- Whether `new RTCIceCandidate(c)` and the ICE agent accept this candidate. -/
  acceptsCandidate : String → Bool

/-! ## The manager -/

/-- Outside effects of the manager, in the order in which they happened. -/
inductive Effect where
  | channelSend (payload : String)
  | channelClose
  | connectionClose
  | trackStop (id : Nat)
  | onConnection (id : String)
  | onMessage (data : Json)
  | onDisconnect (reason : String)
  | onError
  | consoleLog (text : String)
  | consoleWarn (text : String)
  | consoleError (text : String)

/-- The fields of a `WebRTCManager` and the log of its effects. -/
structure WebRTCManager where
  peerConnection : Option RTCPeerConnection
  dataChannel : Option RTCDataChannel
  localStream : Option (List Track)
  /-- The `onDisconnect` callback, as far as the manager is concerned: whether a call
  of it with the given argument throws. -/
  onDisconnect : String → Bool
  log : List Effect

/-- The manager the constructor builds from an empty `config`: the callbacks are the
default `() => {}`, which do not throw. -/
def WebRTCManager.new : WebRTCManager :=
  { peerConnection := none, dataChannel := none, localStream := none,
    onDisconnect := fun _ => false, log := [] }

/-- Append one effect to the log. -/
def WebRTCManager.emit (m : WebRTCManager) (e : Effect) : WebRTCManager :=
  { m with log := m.log ++ [e] }

/-- The object literal of `sendMessage`. -/
def textMessage (content : String) (timestamp : Nat) (sender : Json) : Json :=
  .obj [("type", .str "text"), ("content", .str content),
        ("timestamp", .num timestamp), ("sender", sender)]

/-- `localStorage.getItem(k)` handed to `JSON.parse`: `null` is converted to the
string `"null"`. -/
def parseStored (J : JSONApi) (stored : Option String) : Option Json :=
  J.parse (stored.getD "null")

/-- `WebRTCManager.sendMessage(message)`; `stored` is the `googleChatsUser` entry of
`localStorage`, `now` is `Date.now()`. -/
def WebRTCManager.sendMessage (J : JSONApi) (stored : Option String) (now : Nat)
    (m : WebRTCManager) (message : String) : WebRTCManager × Except JsError Unit :=
  match m.dataChannel with
  | some dc =>
    if dc.readyState = .open then
      match parseStored J stored with
      | none => (m, .error .syntaxError)
      | some sender =>
        (m.emit (.channelSend (J.stringify (textMessage message now sender))), .ok ())
    else (m.emit (.consoleWarn "Data channel не готов"), .ok ())
  | none => (m.emit (.consoleWarn "Data channel не готов"), .ok ())

/-- The payloads handed to `dataChannel.send`, oldest first. -/
def sentPayloads : List Effect → List String
  | [] => []
  | .channelSend p :: rest => p :: sentPayloads rest
  | _ :: rest => sentPayloads rest

/-- The channel exists and its `readyState` is `'open'`. -/
def WebRTCManager.channelOpen (m : WebRTCManager) : Bool :=
  match m.dataChannel with
  | some dc => decide (dc.readyState = .open)
  | none => false

/-! ### Browser methods used by the manager -/

/-- `new RTCPeerConnection(...)` followed by `addTrack` for every given track. -/
def RTCPeerConnection.create (tracks : List Track) : RTCPeerConnection :=
  { signalingState := .stable, localDescription := none, remoteDescription := none,
    candidates := [], iceConnectionState := .new, senders := tracks, generated := 0 }

/-- `RTCPeerConnection.createOffer()`: rejected unless the signaling state is `stable`
or `have-local-offer`. -/
def RTCPeerConnection.createOffer (T : Transport) (pc : RTCPeerConnection) :
    Except JsError (SessionDescription × RTCPeerConnection) :=
  match pc.signalingState with
  | .haveRemoteOffer => .error .invalidStateError
  | _ => .ok ({ type := .offer, sdp := T.sdpText pc.generated },
              { pc with generated := pc.generated + 1 })

/-- `RTCPeerConnection.createAnswer()`: rejected unless the signaling state is
`have-remote-offer`. -/
def RTCPeerConnection.createAnswer (T : Transport) (pc : RTCPeerConnection) :
    Except JsError (SessionDescription × RTCPeerConnection) :=
  match pc.signalingState with
  | .haveRemoteOffer => .ok ({ type := .answer, sdp := T.sdpText pc.generated },
                             { pc with generated := pc.generated + 1 })
  | _ => .error .invalidStateError

/-- `RTCPeerConnection.setLocalDescription(d)`: an offer is applied in `stable` and
`have-local-offer`, an answer in `have-remote-offer`; anything else is rejected with
`InvalidStateError` and changes nothing. -/
def RTCPeerConnection.setLocalDescription (pc : RTCPeerConnection)
    (d : SessionDescription) : Except JsError RTCPeerConnection :=
  match d.type, pc.signalingState with
  | .offer, .stable => .ok { pc with localDescription := some d, signalingState := .haveLocalOffer }
  | .offer, .haveLocalOffer =>
    .ok { pc with localDescription := some d, signalingState := .haveLocalOffer }
  | .answer, .haveRemoteOffer =>
    .ok { pc with localDescription := some d, signalingState := .stable }
  | _, _ => .error .invalidStateError

/-- `RTCPeerConnection.setRemoteDescription(d)`: an offer is applied in `stable` and
`have-remote-offer`, and in `have-local-offer` after an implicit rollback of the local
offer; an answer is applied in `have-local-offer` only.  A description of a type that
the signaling state does not admit is rejected with `InvalidStateError`, a text the
connection cannot apply with `OperationError`; a rejected call changes nothing. -/
def RTCPeerConnection.setRemoteDescription (T : Transport) (pc : RTCPeerConnection)
    (d : SessionDescription) : Except JsError RTCPeerConnection :=
  match d.type, pc.signalingState with
  | .offer, .stable =>
    if T.acceptsSdp d.sdp then
      .ok { pc with remoteDescription := some d, signalingState := .haveRemoteOffer }
    else .error .operationError
  | .offer, .haveRemoteOffer =>
    if T.acceptsSdp d.sdp then
      .ok { pc with remoteDescription := some d, signalingState := .haveRemoteOffer }
    else .error .operationError
  | .offer, .haveLocalOffer =>
    if T.acceptsSdp d.sdp then
      .ok { pc with localDescription := none, remoteDescription := some d,
                    signalingState := .haveRemoteOffer }
    else .error .operationError
  | .answer, .haveLocalOffer =>
    if T.acceptsSdp d.sdp then
      .ok { pc with remoteDescription := some d, signalingState := .stable }
    else .error .operationError
  | .answer, _ => .error .invalidStateError

/-- `RTCPeerConnection.addIceCandidate(new RTCIceCandidate(c))`: rejected with
`InvalidStateError` while there is no remote description, with `OperationError` when
the candidate is not accepted; otherwise the candidate is applied. -/
def RTCPeerConnection.addIceCandidate (T : Transport) (pc : RTCPeerConnection)
    (c : String) : Except JsError RTCPeerConnection :=
  match pc.remoteDescription with
  | none => .error .invalidStateError
  | some _ =>
    if T.acceptsCandidate c then .ok { pc with candidates := pc.candidates ++ [c] }
    else .error .operationError

/-! ### Methods of `WebRTCManager` -/

/-- `createPeerConnection()` with `createDataChannel()` and `setupDataChannel()`: a new
connection carrying the local tracks, and a new channel in state `connecting`. -/
def WebRTCManager.createPeerConnection (m : WebRTCManager) : WebRTCManager :=
  { m with
    peerConnection := some (RTCPeerConnection.create (m.localStream.getD [])),
    dataChannel := some { readyState := .connecting, closePending := false } }

/-- The guard `if (!this.peerConnection) await this.createPeerConnection()`. -/
def WebRTCManager.ensurePeerConnection (m : WebRTCManager) : WebRTCManager × RTCPeerConnection :=
  match m.peerConnection with
  | some pc => (m, pc)
  | none =>
    (m.createPeerConnection, RTCPeerConnection.create (m.localStream.getD []))

/-- `WebRTCManager.createOffer()`. -/
def WebRTCManager.createOffer (T : Transport) (m : WebRTCManager) :
    WebRTCManager × Except JsError SessionDescription :=
  let (m1, pc) := m.ensurePeerConnection
  match pc.createOffer T with
  | .error e => (m1, .error e)
  | .ok (offer, pc1) =>
    match pc1.setLocalDescription offer with
    | .error e => ({ m1 with peerConnection := some pc1 }, .error e)
    | .ok pc2 => ({ m1 with peerConnection := some pc2 }, .ok { type := .offer, sdp := offer.sdp })

/-- `WebRTCManager.handleOffer(offer)`. -/
def WebRTCManager.handleOffer (T : Transport) (m : WebRTCManager) (offer : SessionDescription) :
    WebRTCManager × Except JsError SessionDescription :=
  let (m1, pc) := m.ensurePeerConnection
  match pc.setRemoteDescription T offer with
  | .error e => (m1, .error e)
  | .ok pc1 =>
    match pc1.createAnswer T with
    | .error e => ({ m1 with peerConnection := some pc1 }, .error e)
    | .ok (answer, pc2) =>
      match pc2.setLocalDescription answer with
      | .error e => ({ m1 with peerConnection := some pc2 }, .error e)
      | .ok pc3 =>
        ({ m1 with peerConnection := some pc3 }, .ok { type := .answer, sdp := answer.sdp })

/-- `WebRTCManager.handleAnswer(answer)`. -/
def WebRTCManager.handleAnswer (T : Transport) (m : WebRTCManager) (answer : SessionDescription) :
    WebRTCManager × Except JsError Unit :=
  match m.peerConnection with
  | none => (m, .ok ())
  | some pc =>
    match pc.setRemoteDescription T answer with
    | .error e => (m, .error e)
    | .ok pc1 => ({ m with peerConnection := some pc1 }, .ok ())

/-- `WebRTCManager.handleIceCandidate(candidate)`. -/
def WebRTCManager.handleIceCandidate (T : Transport) (m : WebRTCManager) (candidate : String) :
    WebRTCManager × Except JsError Unit :=
  match m.peerConnection with
  | none => (m, .ok ())
  | some pc =>
    match pc.addIceCandidate T candidate with
    | .ok pc1 => ({ m with peerConnection := some pc1 }, .ok ())
    | .error _ => (m.emit (.consoleError "Ошибка добавления ICE кандидата:"), .ok ())

/-- `WebRTCManager.handleDisconnect()`.  The call of `onDisconnect` is its last
statement and stands in no `try`: an exception of the callback leaves the method, after
everything before it has been done. -/
def WebRTCManager.handleDisconnect (m : WebRTCManager) : WebRTCManager × Except JsError Unit :=
  let m1 : WebRTCManager :=
    match m.dataChannel with
    | some dc => { m with dataChannel := some dc.close, log := m.log ++ [.channelClose] }
    | none => m
  let m2 : WebRTCManager :=
    match m1.peerConnection with
    | some _ => { m1 with peerConnection := none, log := m1.log ++ [.connectionClose] }
    | none => m1
  let m3 : WebRTCManager :=
    match m2.localStream with
    | some tracks =>
      { m2 with localStream := none, log := m2.log ++ tracks.map (fun t => .trackStop t.id) }
    | none => m2
  (m3.emit (.onDisconnect "peer_disconnected"),
   if m3.onDisconnect "peer_disconnected" then .error .callbackError else .ok ())

/-- `WebRTCManager.disconnect()`. -/
def WebRTCManager.disconnect (m : WebRTCManager) : WebRTCManager × Except JsError Unit :=
  m.handleDisconnect

/-! ### Event handlers installed by the manager -/

/-- The `oniceconnectionstatechange` handler, run when the connection's ICE state has
become `s`.  Without a connection the handler's read of
`this.peerConnection.iceConnectionState` throws a `TypeError`. -/
def WebRTCManager.onIceConnectionStateChange (m : WebRTCManager) (s : IceConnectionState) :
    WebRTCManager × Except JsError Unit :=
  match m.peerConnection with
  | none => (m, .error .typeError)
  | some pc =>
    let m1 : WebRTCManager :=
      { m with peerConnection := some { pc with iceConnectionState := s },
               log := m.log ++ [.consoleLog "ICE состояние:"] }
    if s = .disconnected ∨ s = .failed then m1.handleDisconnect
    else (m1, .ok ())

/-- The `dataChannel.onopen` handler, run when the channel has become open. -/
def WebRTCManager.onDataChannelOpen (now : Nat) (m : WebRTCManager) : WebRTCManager :=
  match m.dataChannel with
  | none => m
  | some dc =>
    let m1 : WebRTCManager :=
      { m with dataChannel := some { dc with readyState := .open },
               log := m.log ++ [.consoleLog "Data channel открыт"] }
    m1.emit (.onConnection ("peer_" ++ toString now))

/-- The `dataChannel.onclose` handler. -/
def WebRTCManager.onDataChannelClose (m : WebRTCManager) :
    WebRTCManager × Except JsError Unit :=
  (m.emit (.consoleLog "Data channel закрыт")).handleDisconnect

/-- Delivery of the pending `close` event of the manager's channel, if there is one:
the channel becomes `closed` and `onclose` runs.  What the handler throws goes to the
event loop; the manager is left as the handler left it. -/
def WebRTCManager.deliverClose (m : WebRTCManager) : WebRTCManager :=
  match m.dataChannel with
  | some dc =>
    if dc.closePending then
      (WebRTCManager.onDataChannelClose
        { m with dataChannel := some { readyState := .closed, closePending := false } }).1
    else m
  | none => m

/-- Deliver pending `close` events until none is left, at most `fuel` of them. -/
def WebRTCManager.drainEvents : Nat → WebRTCManager → WebRTCManager
  | 0, m => m
  | fuel + 1, m =>
    match m.dataChannel with
    | some dc => if dc.closePending then drainEvents fuel m.deliverClose else m
    | none => m

/-- The `dataChannel.onerror` handler. -/
def WebRTCManager.onDataChannelError (m : WebRTCManager) : WebRTCManager :=
  (m.emit (.consoleError "Data channel ошибка:")).emit .onError

/-- The object the `catch` branch of `dataChannel.onmessage` builds. -/
def rawTextMessage (data : String) (timestamp : Nat) : Json :=
  .obj [("type", .str "text"), ("content", .str data), ("timestamp", .num timestamp)]

/-- The `dataChannel.onmessage` handler for `event.data = data`; `throws v` tells
whether the caller's `onMessage` callback throws when called with `v`, `now` is
`Date.now()`.  An exception from the `try` block, be it from `JSON.parse` or from the
callback, enters the `catch` block; one from the `catch` block leaves the handler. -/
def WebRTCManager.onDataChannelMessage (J : JSONApi) (throws : Json → Bool) (now : Nat)
    (m : WebRTCManager) (data : String) : WebRTCManager × Except JsError Unit :=
  let catchBlock (m1 : WebRTCManager) : WebRTCManager × Except JsError Unit :=
    (m1.emit (.onMessage (rawTextMessage data now)),
     if throws (rawTextMessage data now) then .error .callbackError else .ok ())
  match J.parse data with
  | none => catchBlock m
  | some v =>
    if throws v then catchBlock (m.emit (.onMessage v))
    else (m.emit (.onMessage v), .ok ())

/-- The values `onMessage` was called with, oldest first. -/
def deliveredMessages : List Effect → List Json
  | [] => []
  | .onMessage v :: rest => v :: deliveredMessages rest
  | _ :: rest => deliveredMessages rest

/-- The reasons `onDisconnect` was called with, oldest first. -/
def disconnectReasons : List Effect → List String
  | [] => []
  | .onDisconnect r :: rest => r :: disconnectReasons rest
  | _ :: rest => disconnectReasons rest

/-- Number of `dataChannel.close()` calls. -/
def channelCloseCalls : List Effect → Nat
  | [] => 0
  | .channelClose :: rest => channelCloseCalls rest + 1
  | _ :: rest => channelCloseCalls rest

/-- Number of `peerConnection.close()` calls. -/
def connectionCloseCalls : List Effect → Nat
  | [] => 0
  | .connectionClose :: rest => connectionCloseCalls rest + 1
  | _ :: rest => connectionCloseCalls rest

/-- The tracks `stop()` was called on, oldest first. -/
def stoppedTracks : List Effect → List Nat
  | [] => []
  | .trackStop i :: rest => i :: stoppedTracks rest
  | _ :: rest => stoppedTracks rest

/-- `handleIceCandidate` for each candidate of a list, in order. -/
def WebRTCManager.handleIceCandidates (T : Transport) (m : WebRTCManager)
    (candidates : List String) : WebRTCManager :=
  candidates.foldl (fun acc c => (acc.handleIceCandidate T c).1) m

/-- The outcomes of `handleIceCandidate` for each candidate of a list, in order. -/
def WebRTCManager.handleIceCandidateOutcomes (T : Transport) :
    WebRTCManager → List String → List (Except JsError Unit)
  | _, [] => []
  | m, c :: rest =>
    (m.handleIceCandidate T c).2 :: handleIceCandidateOutcomes T (m.handleIceCandidate T c).1 rest

/-- The effects one run of `handleDisconnect` appends to the log, read off its three
guards. -/
def disconnectEffects (m : WebRTCManager) : List Effect :=
  (if m.dataChannel.isSome then [Effect.channelClose] else []) ++
  (if m.peerConnection.isSome then [Effect.connectionClose] else []) ++
  (m.localStream.getD []).map (fun t => Effect.trackStop t.id) ++
  [Effect.onDisconnect "peer_disconnected"]

/-! ## A reference implementation of the `JSON` object -/

namespace RefJSON

/-- Decimal digit character of a number below 10. -/
def digitChar (d : Nat) : Char :=
  Char.ofNat (48 + d)

/-- Hexadecimal digit character of a number below 16, in lower case. -/
def hexDigit (n : Nat) : Char :=
  if n < 10 then Char.ofNat (48 + n) else Char.ofNat (87 + n)

/-- Escape of one character of a string literal, as `JSON.stringify` writes it. -/
def quoteChar (c : Char) : List Char :=
  if c = '"' then ['\\', '"']
  else if c = '\\' then ['\\', '\\']
  else if c = '\x08' then ['\\', 'b']
  else if c = '\x0c' then ['\\', 'f']
  else if c = '\n' then ['\\', 'n']
  else if c = '\r' then ['\\', 'r']
  else if c = '\t' then ['\\', 't']
  else if c.toNat < 32 then
    ['\\', 'u', '0', '0', hexDigit (c.toNat / 16), hexDigit (c.toNat % 16)]
  else [c]

/-- Escapes of the characters of a string, without the enclosing quotes. -/
def quoteChars : List Char → List Char
  | [] => []
  | c :: rest => quoteChar c ++ quoteChars rest

/-- A string literal. -/
def quote (s : String) : List Char :=
  '"' :: (quoteChars s.data ++ ['"'])

/-- Decimal digits of a natural number in front of `acc`, most significant first. -/
def natDigitsAux : Nat → Nat → List Char → List Char
  | 0, _, acc => acc
  | fuel + 1, n, acc =>
    if n < 10 then digitChar n :: acc
    else natDigitsAux fuel (n / 10) (digitChar (n % 10) :: acc)

/-- Decimal numeral of a natural number. -/
def natDigits (n : Nat) : List Char :=
  natDigitsAux (n + 1) n []

/-- Decimal numeral of an integer. -/
def intDigits : Int → List Char
  | .ofNat n => natDigits n
  | .negSucc n => '-' :: natDigits (n + 1)

mutual
/-- Text of a value, as `JSON.stringify` writes it without indentation. -/
def write : Json → List Char
  | .null => ['n', 'u', 'l', 'l']
  | .bool true => ['t', 'r', 'u', 'e']
  | .bool false => ['f', 'a', 'l', 's', 'e']
  | .num n => intDigits n
  | .str s => quote s
  | .arr items => '[' :: writeItems items
  | .obj members => '{' :: writeMembers members
/-- Text of the elements of an array, with the closing bracket. -/
def writeItems : List Json → List Char
  | [] => [']']
  | v :: rest => write v ++ writeItemsTail rest
/-- Text of the elements after the first one, with the closing bracket. -/
def writeItemsTail : List Json → List Char
  | [] => [']']
  | v :: rest => ',' :: (write v ++ writeItemsTail rest)
/-- Text of the members of an object, with the closing brace. -/
def writeMembers : List (String × Json) → List Char
  | [] => ['}']
  | (k, v) :: rest => quote k ++ ':' :: (write v ++ writeMembersTail rest)
/-- Text of the members after the first one, with the closing brace. -/
def writeMembersTail : List (String × Json) → List Char
  | [] => ['}']
  | (k, v) :: rest => ',' :: (quote k ++ ':' :: (write v ++ writeMembersTail rest))
end

/-- `JSON.stringify(v)`. -/
def stringify (v : Json) : String :=
  String.mk (write v)

/-- JSON white space. -/
def isWs (c : Char) : Bool :=
  c = ' ' ∨ c = '\t' ∨ c = '\n' ∨ c = '\r'

/-- Skip JSON white space. -/
def skipWs : List Char → List Char
  | [] => []
  | c :: rest => if isWs c then skipWs rest else c :: rest

/-- Value of a hexadecimal digit. -/
def hexValue (c : Char) : Option Nat :=
  if 48 ≤ c.toNat ∧ c.toNat ≤ 57 then some (c.toNat - 48)
  else if 97 ≤ c.toNat ∧ c.toNat ≤ 102 then some (c.toNat - 87)
  else if 65 ≤ c.toNat ∧ c.toNat ≤ 70 then some (c.toNat - 55)
  else none

/-- The character `\uXXXX` denotes; a surrogate code unit has no value here. -/
def unicodeEscape (a b c d : Char) : Option Char :=
  match hexValue a, hexValue b, hexValue c, hexValue d with
  | some x, some y, some z, some w =>
    if 0xD800 ≤ ((x * 16 + y) * 16 + z) * 16 + w ∧ ((x * 16 + y) * 16 + z) * 16 + w ≤ 0xDFFF
    then none
    else some (Char.ofNat (((x * 16 + y) * 16 + z) * 16 + w))
  | _, _, _, _ => none

/-- The character a one-letter escape denotes. -/
def simpleEscape (e : Char) : Option Char :=
  if e = '"' then some '"'
  else if e = '\\' then some '\\'
  else if e = '/' then some '/'
  else if e = 'b' then some '\x08'
  else if e = 'f' then some '\x0c'
  else if e = 'n' then some '\n'
  else if e = 'r' then some '\r'
  else if e = 't' then some '\t'
  else none

/-- Read a string literal after its opening quote; `acc` holds the characters read so
far, last first. -/
def readString : List Char → List Char → Option (String × List Char)
  | [], _ => none
  | c :: rest, acc =>
    if c = '"' then some (String.mk acc.reverse, rest)
    else if c = '\\' then
      match rest with
      | [] => none
      | e :: rest1 =>
        if e = 'u' then
          match rest1 with
          | a :: b :: x :: d :: rest2 =>
            match unicodeEscape a b x d with
            | some ch => readString rest2 (ch :: acc)
            | none => none
          | _ => none
        else
          match simpleEscape e with
          | some ch => readString rest1 (ch :: acc)
          | none => none
    else if c.toNat < 32 then none
    else readString rest (c :: acc)

/-- A decimal digit character. -/
def isDigit (c : Char) : Bool :=
  48 ≤ c.toNat ∧ c.toNat ≤ 57

/-- Read the digits of a numeral; `acc` is the value read so far and `seen` the number
of digits read. -/
def readDigits : List Char → Nat → Nat → Nat × Nat × List Char
  | [], acc, seen => (acc, seen, [])
  | c :: rest, acc, seen =>
    if isDigit c then readDigits rest (acc * 10 + (c.toNat - 48)) (seen + 1)
    else (acc, seen, c :: rest)

/-- What may not follow an integer numeral: the start of a fraction or an exponent. -/
def startsFraction : List Char → Bool
  | [] => false
  | c :: _ => c = '.' ∨ c = 'e' ∨ c = 'E'

/-- Read an unsigned integer numeral: at least one digit, no leading zero before
another digit, and neither a fraction nor an exponent after it. -/
def readNat (cs : List Char) : Option (Nat × List Char) :=
  match readDigits cs 0 0 with
  | (n, seen, rest) =>
    if seen = 0 then none
    else if cs.head? = some '0' ∧ 1 < seen then none
    else if startsFraction rest then none
    else some (n, rest)

/-- Read the rest of a literal name. -/
def readName (name : List Char) (v : Json) (cs : List Char) : Option (Json × List Char) :=
  if name.isPrefixOf cs then some (v, cs.drop name.length) else none

mutual
/-- Read one value, leading white space included. -/
def readValue : Nat → List Char → Option (Json × List Char)
  | 0, _ => none
  | fuel + 1, cs =>
    match skipWs cs with
    | [] => none
    | c :: rest =>
      if c = '"' then
        match readString rest [] with
        | some (s, rest1) => some (.str s, rest1)
        | none => none
      else if c = '[' then
        match skipWs rest with
        | [] => none
        | d :: rest1 => if d = ']' then some (.arr [], rest1) else readItems fuel (d :: rest1) []
      else if c = '{' then
        match skipWs rest with
        | [] => none
        | d :: rest1 => if d = '}' then some (.obj [], rest1) else readMembers fuel (d :: rest1) []
      else if c = '-' then
        match readNat rest with
        | some (n, rest1) => some (.num (-(n : Int)), rest1)
        | none => none
      else if c = 'n' then readName ['u', 'l', 'l'] .null rest
      else if c = 't' then readName ['r', 'u', 'e'] (.bool true) rest
      else if c = 'f' then readName ['a', 'l', 's', 'e'] (.bool false) rest
      else
        match readNat (c :: rest) with
        | some (n, rest1) => some (.num (n : Int), rest1)
        | none => none
/-- Read the elements of a non-empty array up to its closing bracket. -/
def readItems : Nat → List Char → List Json → Option (Json × List Char)
  | 0, _, _ => none
  | fuel + 1, cs, acc =>
    match readValue fuel cs with
    | none => none
    | some (v, rest) =>
      match skipWs rest with
      | [] => none
      | d :: rest1 =>
        if d = ',' then readItems fuel rest1 (acc ++ [v])
        else if d = ']' then some (.arr (acc ++ [v]), rest1)
        else none
/-- Read the members of a non-empty object up to its closing brace. -/
def readMembers : Nat → List Char → List (String × Json) → Option (Json × List Char)
  | 0, _, _ => none
  | fuel + 1, cs, acc =>
    match skipWs cs with
    | [] => none
    | q :: rest =>
      if q = '"' then
        match readString rest [] with
        | none => none
        | some (k, rest1) =>
          match skipWs rest1 with
          | [] => none
          | c :: rest2 =>
            if c = ':' then
              match readValue fuel rest2 with
              | none => none
              | some (v, rest3) =>
                match skipWs rest3 with
                | [] => none
                | d :: rest4 =>
                  if d = ',' then readMembers fuel rest4 (acc ++ [(k, v)])
                  else if d = '}' then some (.obj (acc ++ [(k, v)]), rest4)
                  else none
            else none
      else none
end

/-- `JSON.parse(text)`: one value with nothing but white space after it. -/
def parse (text : String) : Option Json :=
  match readValue (text.data.length + 1) text.data with
  | some (v, rest) => if skipWs rest = [] then some v else none
  | none => none

mutual
/-- Fuel that reading the text of a value needs. -/
def size : Json → Nat
  | .null => 1
  | .bool _ => 1
  | .num _ => 1
  | .str _ => 1
  | .arr items => 1 + sizeItems items
  | .obj members => 1 + sizeMembers members
/-- Fuel that reading the elements of an array needs. -/
def sizeItems : List Json → Nat
  | [] => 0
  | v :: rest => 1 + size v + sizeItems rest
/-- Fuel that reading the members of an object needs. -/
def sizeMembers : List (String × Json) → Nat
  | [] => 0
  | (_, v) :: rest => 1 + size v + sizeMembers rest
end

/-- The text after a value written by `write` inside a larger text: nothing, or a
separator or a closing bracket. -/
def stops : List Char → Bool
  | [] => true
  | c :: _ => c = ',' ∨ c = ']' ∨ c = '}'

end RefJSON

/-- The reference implementation as a `JSONApi`.  Numbers are integers, written in
full, and strings are sequences of Unicode scalar values: a numeral with a fraction or
an exponent and an escape of a surrogate code unit are not read.  Members of an object
are kept in the order of the text. -/
def refJSON : JSONApi :=
  { parse := RefJSON.parse, stringify := RefJSON.stringify }

/-! ## The application (`src/app.js`) -/

/-- A peer record kept by the application. -/
structure Peer where
  id : String
  name : String
  deriving DecidableEq, Repr

/-- The fields of `GoogleChatsApp` that `handleDisconnect` touches: the `connections`
map in insertion order, the active connection, whether the message input and the send
button are disabled, and the toasts shown. -/
structure GoogleChatsApp where
  connections : List (String × Peer)
  activeConnection : Option Peer
  inputDisabled : Bool
  toasts : List String
  deriving DecidableEq, Repr

/-- `Map.prototype.has`. -/
def GoogleChatsApp.hasConnection (app : GoogleChatsApp) (peerId : String) : Bool :=
  app.connections.any (fun kv => kv.1 == peerId)

/-- `GoogleChatsApp.handleDisconnect(peerId)`. -/
def GoogleChatsApp.handleDisconnect (app : GoogleChatsApp) (peerId : String) : GoogleChatsApp :=
  let app1 : GoogleChatsApp :=
    { app with connections := app.connections.filter (fun kv => !(kv.1 == peerId)) }
  let app2 : GoogleChatsApp :=
    if app1.activeConnection.map Peer.id = some peerId then
      { app1 with activeConnection := none, inputDisabled := true }
    else app1
  { app2 with toasts := app2.toasts ++ ["Собеседник отключился"] }

/-- The wiring of `initWebRTC`, `onDisconnect: this.handleDisconnect.bind(this)`, at a
run of the manager's `handleDisconnect`: the application method runs once for every
call of the callback, with the argument of that call. -/
def GoogleChatsApp.onManagerDisconnect (app : GoogleChatsApp) (m : WebRTCManager) :
    GoogleChatsApp × WebRTCManager :=
  let m1 := m.handleDisconnect.1
  ((disconnectReasons (m1.log.drop m.log.length)).foldl GoogleChatsApp.handleDisconnect app, m1)

/-! ## `initialize` -/

/-- `WebRTCManager.initialize()`; `media` is the outcome of
`navigator.mediaDevices.getUserMedia`, the granted stream or whatever error the request
ended with. -/
def WebRTCManager.initialize {ε : Type} (media : Except ε (List Track)) (m : WebRTCManager) :
    WebRTCManager × Except JsError Bool :=
  match media with
  | .ok stream => ({ m with localStream := some stream }, .ok true)
  | .error _ => (m.emit (.consoleWarn "Не удалось получить доступ к микрофону:"), .ok true)

/-! ## The service worker (`src/service-worker.js`) -/

namespace ServiceWorker

/-- The constant `CACHE_NAME`. -/
def CACHE_NAME : String := "googlechats-v2"

/-- A `Response`, as far as the worker looks at it. -/
structure Response where
  status : Nat
  type : String
  body : String
  deriving DecidableEq, Repr

/-- A `Request`: its method, its URL and `headers.get('accept')`, which is `null` when
the request carries no `Accept` header. -/
structure Request where
  method : String
  url : String
  accept : Option String
  deriving DecidableEq, Repr

/-- A `CacheStorage`: the caches by name, oldest first, each with its entries by URL. -/
structure CacheStorage where
  caches : List (String × List (String × Response))
  deriving DecidableEq, Repr

/-- `caches.keys()`. -/
def CacheStorage.keys (store : CacheStorage) : List String :=
  store.caches.map Prod.fst

/-- `caches.delete(name)`. -/
def CacheStorage.delete (store : CacheStorage) (name : String) : CacheStorage :=
  { caches := store.caches.filter (fun c => !(c.1 == name)) }

/-- Look a URL up in the caches, in the order of their creation. -/
def lookupUrl (url : String) : List (String × List (String × Response)) → Option Response
  | [] => none
  | c :: rest =>
    match c.2.find? (fun e => e.1 == url) with
    | some e => some e.2
    | none => lookupUrl url rest

/-- `caches.match(request)`: only a `GET` request matches an entry. -/
def CacheStorage.«match» (store : CacheStorage) (method url : String) : Option Response :=
  if method = "GET" then lookupUrl url store.caches else none

/-- `cache.put(url, response)` on the entries of one cache. -/
def putEntry (url : String) (response : Response) (entries : List (String × Response)) :
    List (String × Response) :=
  entries.filter (fun e => !(e.1 == url)) ++ [(url, response)]

/-- `caches.open(name).then(cache => cache.put(request, response))`: the cache is made
if it is missing; a request that is not a `GET` is refused by `put`, inside a promise
that nobody waits for. -/
def CacheStorage.put (store : CacheStorage) (name method url : String) (response : Response) :
    CacheStorage :=
  let opened : List (String × List (String × Response)) :=
    if store.caches.any (fun c => c.1 == name) then store.caches
    else store.caches ++ [(name, [])]
  if method = "GET" then
    { caches := opened.map (fun c => if c.1 == name then (c.1, putEntry url response c.2) else c) }
  else { caches := opened }

/-- The `activate` listener: `caches.delete` for every key that is not `CACHE_NAME`, in
the order of `caches.keys()`.  The console lines and the `clients.claim()` that follows
do not touch the cache storage. -/
def activate (store : CacheStorage) : CacheStorage :=
  store.keys.foldl
    (fun acc cacheName => if cacheName ≠ CACHE_NAME then acc.delete cacheName else acc) store

/-- `String.prototype.includes` on the characters of two strings. -/
def includesChars (part : List Char) : List Char → Bool
  | [] => part.isPrefixOf []
  | c :: rest => part.isPrefixOf (c :: rest) || includesChars part rest

/-- `text.includes(part)`. -/
def includes (text part : String) : Bool :=
  includesChars part.data text.data

/-- `text.startsWith(part)`. -/
def startsWith (text part : String) : Bool :=
  part.data.isPrefixOf text.data

/-- The guard at the head of the `fetch` listener: the worker leaves the request alone. -/
def skipped (request : Request) : Bool :=
  includes request.url "stun:" || includes request.url "turn:" ||
    startsWith request.url "ws:" || startsWith request.url "wss:"

/-- The `catch` callback of the `fetch` listener.  `includes` called on the `null` that
`headers.get('accept')` gives for a missing header throws a `TypeError`. -/
def offlineFallback (store : CacheStorage) (request : Request) :
    Except JsError (Option Response) :=
  match request.accept with
  | none => .error .typeError
  | some accept =>
    if includes accept "text/html" then .ok (store.«match» "GET" "/index.html")
    else .ok none

/-- The `fetch` listener.  `lookupFails` tells whether `caches.match(event.request)` is
rejected, `network` is the outcome of `fetch(event.request)`.  The result is `none` when
the listener returns without `respondWith`, and otherwise the cache storage afterwards
with the outcome of the promise given to `respondWith`. -/
def onFetch {ε : Type} (store : CacheStorage) (request : Request) (lookupFails : Bool)
    (network : Except ε Response) :
    Option (CacheStorage × Except JsError (Option Response)) :=
  if skipped request then none
  else if lookupFails then some (store, offlineFallback store request)
  else
    match store.«match» request.method request.url with
    | some cached => some (store, .ok (some cached))
    | none =>
      match network with
      | .error _ => some (store, offlineFallback store request)
      | .ok response =>
        if response.status ≠ 200 ∨ response.type ≠ "basic" then
          some (store, .ok (some response))
        else
          some (store.put CACHE_NAME request.method request.url response, .ok (some response))

end ServiceWorker

/-! ## Sample values -/

/-- A platform that numbers its descriptions and accepts every description and every
candidate. -/
def sampleTransport : Transport :=
  { sdpText := fun n => "v=0 o=- " ++ toString n,
    acceptsSdp := fun _ => true,
    acceptsCandidate := fun _ => true }

/-- A manager whose connection exists and whose channel is open. -/
def openManager : WebRTCManager :=
  { peerConnection := some (RTCPeerConnection.create []),
    dataChannel := some { readyState := .open, closePending := false },
    localStream := none, onDisconnect := fun _ => false, log := [] }

/-- The open manager with an `onDisconnect` callback that throws. -/
def throwingManager : WebRTCManager :=
  { openManager with onDisconnect := fun _ => true }

/-! # Theorems -/

/-! ## Lemmas on the log -/

theorem sentPayloads_append (xs ys : List Effect) :
    sentPayloads (xs ++ ys) = sentPayloads xs ++ sentPayloads ys := by
  induction xs with
  | nil => rfl
  | cons e rest ih => cases e <;> simp [sentPayloads, ih]

theorem disconnectReasons_append (xs ys : List Effect) :
    disconnectReasons (xs ++ ys) = disconnectReasons xs ++ disconnectReasons ys := by
  induction xs with
  | nil => rfl
  | cons e rest ih => cases e <;> simp [disconnectReasons, ih]

theorem channelCloseCalls_append (xs ys : List Effect) :
    channelCloseCalls (xs ++ ys) = channelCloseCalls xs + channelCloseCalls ys := by
  induction xs with
  | nil => simp [channelCloseCalls]
  | cons e rest ih => cases e <;> simp [channelCloseCalls, ih]; omega

theorem connectionCloseCalls_append (xs ys : List Effect) :
    connectionCloseCalls (xs ++ ys) = connectionCloseCalls xs + connectionCloseCalls ys := by
  induction xs with
  | nil => simp [connectionCloseCalls]
  | cons e rest ih => cases e <;> simp [connectionCloseCalls, ih]; omega

theorem stoppedTracks_append (xs ys : List Effect) :
    stoppedTracks (xs ++ ys) = stoppedTracks xs ++ stoppedTracks ys := by
  induction xs with
  | nil => rfl
  | cons e rest ih => cases e <;> simp [stoppedTracks, ih]

theorem stoppedTracks_map_trackStop (tracks : List Track) :
    stoppedTracks (tracks.map (fun t => Effect.trackStop t.id)) = tracks.map Track.id := by
  induction tracks with
  | nil => rfl
  | cons t rest ih => simp [stoppedTracks, ih]

theorem disconnectReasons_map_trackStop (tracks : List Track) :
    disconnectReasons (tracks.map (fun t => Effect.trackStop t.id)) = [] := by
  induction tracks with
  | nil => rfl
  | cons t rest ih => simp [disconnectReasons, ih]

theorem channelCloseCalls_map_trackStop (tracks : List Track) :
    channelCloseCalls (tracks.map (fun t => Effect.trackStop t.id)) = 0 := by
  induction tracks with
  | nil => rfl
  | cons t rest ih => simp [channelCloseCalls, ih]

theorem connectionCloseCalls_map_trackStop (tracks : List Track) :
    connectionCloseCalls (tracks.map (fun t => Effect.trackStop t.id)) = 0 := by
  induction tracks with
  | nil => rfl
  | cons t rest ih => simp [connectionCloseCalls, ih]

/-! ## `sendMessage` -/

/-- Away from the unguarded `JSON.parse`, that is when the stored `googleChatsUser`
entry parses, `sendMessage` hands exactly one payload to the data channel if the
channel exists and is open, and none in every other state. -/
theorem sendMessage_transmits_iff_open (J : JSONApi) (stored : Option String) (now : Nat)
    (m : WebRTCManager) (message : String) (sender : Json)
    (hstored : m.channelOpen = true → parseStored J stored = some sender) :
    sentPayloads (m.sendMessage J stored now message).1.log =
      sentPayloads m.log ++
        (if m.channelOpen = true then [J.stringify (textMessage message now sender)] else []) := by
  unfold WebRTCManager.sendMessage
  cases hdc : m.dataChannel with
  | none =>
    simp [WebRTCManager.channelOpen, hdc, WebRTCManager.emit, sentPayloads_append, sentPayloads]
  | some dc =>
    by_cases hopen : dc.readyState = .open
    · have hch : m.channelOpen = true := by simp [WebRTCManager.channelOpen, hdc, hopen]
      simp [hopen, hstored hch, hch, WebRTCManager.emit, sentPayloads_append, sentPayloads]
    · have hch : m.channelOpen = false := by simp [WebRTCManager.channelOpen, hdc, hopen]
      simp [hopen, hch, WebRTCManager.emit, sentPayloads_append, sentPayloads]

/-- An open channel with an absent stored entry: one payload is handed over. -/
theorem sendMessage_transmits_iff_open_witness :
    sentPayloads (openManager.sendMessage refJSON none 1700000000000 "hello").1.log =
      sentPayloads openManager.log ++
        (if openManager.channelOpen = true then
          [refJSON.stringify (textMessage "hello" 1700000000000 .null)] else []) :=
  sendMessage_transmits_iff_open refJSON none 1700000000000 openManager "hello" .null
    (fun _ => rfl)

/-- C1 fails in the code: the channel is open, the stored `googleChatsUser` entry is not
JSON, and `sendMessage` hands nothing to the channel; the `JSON.parse` that stands
before `dataChannel.send`, in no `try`, throws a `SyntaxError`. -/
theorem sendMessage_open_channel_sends_nothing :
    openManager.channelOpen = true ∧
      sentPayloads (openManager.sendMessage refJSON (some "\x7boops") 1700000000000 "hello").1.log
        = [] ∧
      (openManager.sendMessage refJSON (some "\x7boops") 1700000000000 "hello").2
        = .error .syntaxError := by
  refine ⟨rfl, rfl, rfl⟩

/-- C2, as the code has it: with the channel absent or not open `sendMessage` returns
normally, having done nothing but write the warning to the console. -/
theorem sendMessage_not_open_returns_normally (J : JSONApi) (stored : Option String)
    (now : Nat) (m : WebRTCManager) (message : String) (hclosed : m.channelOpen = false) :
    m.sendMessage J stored now message =
      (m.emit (.consoleWarn "Data channel не готов"), .ok ()) := by
  unfold WebRTCManager.sendMessage
  cases hdc : m.dataChannel with
  | none => rfl
  | some dc =>
    have hne : ¬ dc.readyState = .open := by
      simpa [WebRTCManager.channelOpen, hdc] using hclosed
    simp [hne]

/-- A manager without a channel: the call returns normally. -/
theorem sendMessage_not_open_returns_normally_witness :
    WebRTCManager.new.channelOpen = false ∧
      WebRTCManager.new.sendMessage refJSON none 0 "hello" =
        (WebRTCManager.new.emit (.consoleWarn "Data channel не готов"), .ok ()) :=
  ⟨rfl, sendMessage_not_open_returns_normally refJSON none 0 WebRTCManager.new "hello" rfl⟩

/-- C2 fails: a send without a channel and a send on an open channel end with the same
result, and it is not an error. -/
theorem sendMessage_rejected_send_not_surfaced :
    (WebRTCManager.new.sendMessage refJSON none 0 "hello").2 = .ok () ∧
      (openManager.sendMessage refJSON none 0 "hello").2 = .ok () ∧
      sentPayloads (WebRTCManager.new.sendMessage refJSON none 0 "hello").1.log = [] := by
  refine ⟨rfl, rfl, rfl⟩

/-! ## `handleDisconnect` and `disconnect` -/

theorem handleDisconnect_eq (m : WebRTCManager) :
    m.handleDisconnect =
      ({ peerConnection := none, dataChannel := m.dataChannel.map RTCDataChannel.close,
         localStream := none, onDisconnect := m.onDisconnect,
         log := m.log ++ disconnectEffects m },
       if m.onDisconnect "peer_disconnected" = true then .error .callbackError else .ok ()) := by
  obtain ⟨pc, dc, ls, cb, log⟩ := m
  cases pc <;> cases dc <;> cases ls <;>
    simp [WebRTCManager.handleDisconnect, WebRTCManager.emit, disconnectEffects]

theorem disconnectReasons_disconnectEffects (m : WebRTCManager) :
    disconnectReasons (disconnectEffects m) = ["peer_disconnected"] := by
  obtain ⟨pc, dc, ls, cb, log⟩ := m
  cases pc <;> cases dc <;>
    simp [disconnectEffects, disconnectReasons_append, disconnectReasons,
      disconnectReasons_map_trackStop]

theorem close_close (dc : RTCDataChannel) : dc.close.close = dc.close := by
  obtain ⟨rs, cp⟩ := dc
  cases rs <;> rfl

theorem close_readyState (dc : RTCDataChannel) :
    dc.close.readyState = .closing ∨ dc.close.readyState = .closed := by
  obtain ⟨rs, cp⟩ := dc
  cases rs <;> simp [RTCDataChannel.close]

theorem iterate_disconnect_reasons (n : Nat) (m : WebRTCManager) :
    disconnectReasons (Nat.iterate (fun x => (WebRTCManager.disconnect x).1) n m).log =
      disconnectReasons m.log ++ List.replicate n "peer_disconnected" := by
  induction n generalizing m with
  | zero => simp
  | succ k ih =>
    rw [Function.iterate_succ_apply, ih, WebRTCManager.disconnect, handleDisconnect_eq]
    simp [disconnectReasons_append, disconnectReasons_disconnectEffects,
      List.replicate_succ]

theorem iterate_disconnect_fields (n : Nat) (m : WebRTCManager) :
    (Nat.iterate (fun x => (WebRTCManager.disconnect x).1) (n + 1) m).peerConnection = none ∧
    (Nat.iterate (fun x => (WebRTCManager.disconnect x).1) (n + 1) m).dataChannel =
      m.dataChannel.map RTCDataChannel.close ∧
    (Nat.iterate (fun x => (WebRTCManager.disconnect x).1) (n + 1) m).localStream = none := by
  induction n generalizing m with
  | zero => simp [WebRTCManager.disconnect, handleDisconnect_eq]
  | succ k ih =>
    rw [Function.iterate_succ_apply]
    obtain ⟨h1, h2, h3⟩ := ih m.disconnect.1
    refine ⟨h1, ?_, h3⟩
    rw [h2, WebRTCManager.disconnect, handleDisconnect_eq]
    cases m.dataChannel <;> simp [close_close]

/-- C3, as the code has it: `disconnect()` called `n` times in a row calls
`onDisconnect` `n` times, once per call, whether or not the callback throws; from the
first call on the connection and the local stream are `null` and the channel is the
closed one, so every later call leaves these fields as the first call left them. -/
theorem disconnect_repeated (n : Nat) (m : WebRTCManager) :
    disconnectReasons (Nat.iterate (fun x => (WebRTCManager.disconnect x).1) n m).log =
      disconnectReasons m.log ++ List.replicate n "peer_disconnected" ∧
    (Nat.iterate (fun x => (WebRTCManager.disconnect x).1) (n + 1) m).peerConnection =
      m.disconnect.1.peerConnection ∧
    (Nat.iterate (fun x => (WebRTCManager.disconnect x).1) (n + 1) m).dataChannel =
      m.disconnect.1.dataChannel ∧
    (Nat.iterate (fun x => (WebRTCManager.disconnect x).1) (n + 1) m).localStream =
      m.disconnect.1.localStream := by
  obtain ⟨h1, h2, h3⟩ := iterate_disconnect_fields n m
  obtain ⟨g1, g2, g3⟩ := iterate_disconnect_fields 0 m
  exact ⟨iterate_disconnect_reasons n m, h1.trans g1.symm, h2.trans g2.symm,
    h3.trans g3.symm⟩

/-- C3 fails: two calls of `disconnect()` in a row, both returning normally, call
`onDisconnect` twice. -/
theorem disconnect_twice_notifies_twice :
    disconnectReasons openManager.disconnect.1.disconnect.1.log =
      ["peer_disconnected", "peer_disconnected"] ∧
    openManager.disconnect.2 = .ok () ∧
    openManager.disconnect.1.disconnect.2 = .ok () := by
  refine ⟨rfl, rfl, rfl⟩

/-- C4, as the code has it: after `disconnect()`, in every state of the manager and
whatever the outcome of the call, the channel, if there is one, has had `close()`
called and is closing or closed, the connection, if there was one, has had `close()`
called and the field is `null`, and every track of the local stream has had `stop()`
called and the field is `null`.  The call fails exactly when the `onDisconnect`
callback throws, which it is asked last; otherwise it returns normally. -/
theorem disconnect_releases_everything (m : WebRTCManager) :
    m.disconnect.1.dataChannel = m.dataChannel.map RTCDataChannel.close ∧
    (m.disconnect.1.dataChannel.all
      (fun dc => decide (dc.readyState = .closing ∨ dc.readyState = .closed))) = true ∧
    channelCloseCalls m.disconnect.1.log =
      channelCloseCalls m.log + (if m.dataChannel.isSome then 1 else 0) ∧
    m.disconnect.1.peerConnection = none ∧
    connectionCloseCalls m.disconnect.1.log =
      connectionCloseCalls m.log + (if m.peerConnection.isSome then 1 else 0) ∧
    m.disconnect.1.localStream = none ∧
    stoppedTracks m.disconnect.1.log =
      stoppedTracks m.log ++ (m.localStream.getD []).map Track.id ∧
    disconnectReasons m.disconnect.1.log = disconnectReasons m.log ++ ["peer_disconnected"] ∧
    m.disconnect.2 =
      (if m.onDisconnect "peer_disconnected" = true then .error .callbackError
       else .ok ()) := by
  rw [WebRTCManager.disconnect, handleDisconnect_eq]
  have hreasons := disconnectReasons_disconnectEffects m
  obtain ⟨pc, dc, ls, cb, log⟩ := m
  refine ⟨rfl, ?_, ?_, rfl, ?_, rfl, ?_, ?_, rfl⟩
  · cases dc with
    | none => rfl
    | some d => simpa [Option.all] using close_readyState d
  · cases pc <;> cases dc <;>
      simp [disconnectEffects, channelCloseCalls_append, channelCloseCalls,
        channelCloseCalls_map_trackStop]
  · cases pc <;> cases dc <;>
      simp [disconnectEffects, connectionCloseCalls_append, connectionCloseCalls,
        connectionCloseCalls_map_trackStop]
  · cases pc <;> cases dc <;>
      simp [disconnectEffects, stoppedTracks_append, stoppedTracks,
        stoppedTracks_map_trackStop]
  · simp only [disconnectReasons_append, hreasons]

/-- C4 fails: with an `onDisconnect` callback that throws, `disconnect()` throws; the
channel and the connection have had `close()` called before. -/
theorem disconnect_fails_when_callback_throws :
    throwingManager.disconnect.2 = .error .callbackError ∧
    throwingManager.disconnect.1.peerConnection = none ∧
    channelCloseCalls throwingManager.disconnect.1.log = 1 ∧
    connectionCloseCalls throwingManager.disconnect.1.log = 1 := by
  refine ⟨rfl, rfl, rfl, rfl⟩

/-- C5 fails in the code: from a manager with a connection and an open channel, an ICE
state change to `failed` or `disconnected`, followed by the delivery of the `close`
event that `handleDisconnect` provoked, calls `onDisconnect` twice. -/
theorem ice_failure_notifies_twice (m : WebRTCManager) (pc : RTCPeerConnection)
    (dc : RTCDataChannel) (s : IceConnectionState) (fuel : Nat)
    (hpc : m.peerConnection = some pc) (hdc : m.dataChannel = some dc)
    (hopen : dc.readyState = .open) (hs : s = .failed ∨ s = .disconnected) :
    disconnectReasons
        (WebRTCManager.drainEvents (fuel + 1) (m.onIceConnectionStateChange s).1).log =
      disconnectReasons m.log ++ ["peer_disconnected", "peer_disconnected"] := by
  obtain ⟨pc0, dc0, ls, cb, log⟩ := m
  obtain ⟨rs, cp⟩ := dc
  simp only at hpc hdc hopen
  subst hpc hdc hopen
  have hs' : s = .disconnected ∨ s = .failed := hs.symm
  cases fuel <;>
    simp [WebRTCManager.onIceConnectionStateChange, hs', handleDisconnect_eq,
      WebRTCManager.drainEvents, WebRTCManager.deliverClose,
      WebRTCManager.onDataChannelClose, WebRTCManager.emit, RTCDataChannel.close,
      disconnectReasons_append, disconnectReasons_disconnectEffects, disconnectReasons,
      disconnectReasons_map_trackStop]

/-- The open manager, ICE state `failed`: two calls of `onDisconnect`. -/
theorem ice_failure_notifies_twice_witness :
    disconnectReasons
        (WebRTCManager.drainEvents 4 (openManager.onIceConnectionStateChange .failed).1).log =
      disconnectReasons openManager.log ++ ["peer_disconnected", "peer_disconnected"] :=
  ice_failure_notifies_twice openManager (RTCPeerConnection.create [])
    { readyState := .open, closePending := false } .failed 3 rfl rfl rfl (Or.inl rfl)

/-! ## The wired `onDisconnect` callback -/

theorem onManagerDisconnect_app (app : GoogleChatsApp) (m : WebRTCManager) :
    (app.onManagerDisconnect m).1 = app.handleDisconnect "peer_disconnected" := by
  simp [GoogleChatsApp.onManagerDisconnect, handleDisconnect_eq,
    disconnectReasons_disconnectEffects]

/-- C6 fails in the code: the wired callback receives the reason string
`'peer_disconnected'` where `GoogleChatsApp.handleDisconnect` expects a peer id, so a
peer stored under any other key is still a key of `connections` after the manager's
`handleDisconnect`, and if it was the active connection it still is. -/
theorem transport_failure_keeps_session (app : GoogleChatsApp) (m : WebRTCManager)
    (peer : Peer) (hkey : app.hasConnection peer.id = true)
    (hid : peer.id ≠ "peer_disconnected") (hactive : app.activeConnection = some peer) :
    (app.onManagerDisconnect m).1.hasConnection peer.id = true ∧
      (app.onManagerDisconnect m).1.activeConnection = some peer := by
  rw [onManagerDisconnect_app]
  constructor
  · simp only [GoogleChatsApp.hasConnection, List.any_eq_true] at hkey ⊢
    obtain ⟨kv, hmem, hk⟩ := hkey
    refine ⟨kv, ?_, hk⟩
    have hkv : kv.1 = peer.id := by simpa using hk
    simp only [GoogleChatsApp.handleDisconnect]
    split <;> simp [List.mem_filter, hmem, hkv, hid]
  · simp [GoogleChatsApp.handleDisconnect, hactive, hid]

/-- One stored, active peer `gc_1`: it survives the manager's `handleDisconnect`. -/
theorem transport_failure_keeps_session_witness :
    (GoogleChatsApp.onManagerDisconnect
        { connections := [("gc_1", { id := "gc_1", name := "Собеседник" })],
          activeConnection := some { id := "gc_1", name := "Собеседник" },
          inputDisabled := false, toasts := [] } openManager).1.hasConnection "gc_1" = true ∧
      (GoogleChatsApp.onManagerDisconnect
        { connections := [("gc_1", { id := "gc_1", name := "Собеседник" })],
          activeConnection := some { id := "gc_1", name := "Собеседник" },
          inputDisabled := false, toasts := [] } openManager).1.activeConnection =
        some { id := "gc_1", name := "Собеседник" } :=
  transport_failure_keeps_session
    { connections := [("gc_1", { id := "gc_1", name := "Собеседник" })],
      activeConnection := some { id := "gc_1", name := "Собеседник" },
      inputDisabled := false, toasts := [] } openManager
    { id := "gc_1", name := "Собеседник" } (by decide) (by decide) rfl

/-! ## The handshake -/

theorem handleIceCandidate_before_remote (T : Transport) (m : WebRTCManager) (c : String)
    (hremote : ∀ pc, m.peerConnection = some pc → pc.remoteDescription = none) :
    (m.handleIceCandidate T c).1.peerConnection = m.peerConnection ∧
    (m.handleIceCandidate T c).1.dataChannel = m.dataChannel ∧
    (m.handleIceCandidate T c).1.localStream = m.localStream ∧
    (m.handleIceCandidate T c).2 = .ok () := by
  unfold WebRTCManager.handleIceCandidate
  cases hpc : m.peerConnection with
  | none => simp [hpc]
  | some pc =>
    have h := hremote pc hpc
    simp [RTCPeerConnection.addIceCandidate, h, WebRTCManager.emit, hpc]

theorem handleIceCandidate_returns (T : Transport) (m : WebRTCManager) (candidate : String) :
    (m.handleIceCandidate T candidate).2 = .ok () := by
  unfold WebRTCManager.handleIceCandidate
  cases m.peerConnection with
  | none => rfl
  | some pc =>
    simp only []
    split <;> rfl

theorem handleIceCandidateOutcomes_ok (T : Transport) (candidates : List String)
    (m : WebRTCManager) :
    m.handleIceCandidateOutcomes T candidates = candidates.map (fun _ => .ok ()) := by
  induction candidates generalizing m with
  | nil => rfl
  | cons c rest ih =>
    simp [WebRTCManager.handleIceCandidateOutcomes, handleIceCandidate_returns, ih]

theorem handleIceCandidate_before_remote_log (T : Transport) (m : WebRTCManager) (c : String)
    (hremote : ∀ pc, m.peerConnection = some pc → pc.remoteDescription = none) :
    (m.handleIceCandidate T c).1.log =
      m.log ++ (if m.peerConnection.isSome then
        [Effect.consoleError "Ошибка добавления ICE кандидата:"] else []) := by
  unfold WebRTCManager.handleIceCandidate
  cases hpc : m.peerConnection with
  | none => simp
  | some pc =>
    have h := hremote pc hpc
    simp [RTCPeerConnection.addIceCandidate, h, WebRTCManager.emit]

theorem handleIceCandidates_before_remote (T : Transport) (candidates : List String)
    (m : WebRTCManager)
    (hremote : ∀ pc, m.peerConnection = some pc → pc.remoteDescription = none) :
    (m.handleIceCandidates T candidates).peerConnection = m.peerConnection ∧
    (m.handleIceCandidates T candidates).dataChannel = m.dataChannel ∧
    (m.handleIceCandidates T candidates).localStream = m.localStream := by
  induction candidates generalizing m with
  | nil => exact ⟨rfl, rfl, rfl⟩
  | cons c rest ih =>
    obtain ⟨h1, h2, h3, _⟩ := handleIceCandidate_before_remote T m c hremote
    have hnext : ∀ pc, (m.handleIceCandidate T c).1.peerConnection = some pc →
        pc.remoteDescription = none := by
      intro pc hpc
      exact hremote pc (h1 ▸ hpc)
    obtain ⟨g1, g2, g3⟩ := ih (m.handleIceCandidate T c).1 hnext
    exact ⟨g1.trans h1, g2.trans h2, g3.trans h3⟩

theorem handleIceCandidates_before_remote_log (T : Transport) (candidates : List String)
    (m : WebRTCManager)
    (hremote : ∀ pc, m.peerConnection = some pc → pc.remoteDescription = none) :
    (m.handleIceCandidates T candidates).log =
      m.log ++ (if m.peerConnection.isSome then
        candidates.map (fun _ => Effect.consoleError "Ошибка добавления ICE кандидата:")
        else []) := by
  induction candidates generalizing m with
  | nil => simp [WebRTCManager.handleIceCandidates]
  | cons c rest ih =>
    obtain ⟨h1, _, _, _⟩ := handleIceCandidate_before_remote T m c hremote
    have hlog := handleIceCandidate_before_remote_log T m c hremote
    have hnext : ∀ pc, (m.handleIceCandidate T c).1.peerConnection = some pc →
        pc.remoteDescription = none := by
      intro pc hpc
      exact hremote pc (h1 ▸ hpc)
    have hrest := ih (m.handleIceCandidate T c).1 hnext
    rw [h1, hlog] at hrest
    have hstep : m.handleIceCandidates T (c :: rest) =
        (m.handleIceCandidate T c).1.handleIceCandidates T rest := rfl
    rw [hstep, hrest]
    cases m.peerConnection <;> simp

/-- C8, as the code has it: candidates passed to `handleIceCandidate` while there is no
connection, or no remote description yet, are dropped.  Every one of the calls returns
normally; the connection, the channel and the local stream are as they were before the
candidates came, and the only effect is one console error per candidate when there is
a connection, so no candidate is kept anywhere; the connection that a later
`handleAnswer` leaves is the one it would have left had the candidates never come. -/
theorem candidates_before_remote_description_dropped (T : Transport)
    (candidates : List String) (m : WebRTCManager) (answer : SessionDescription)
    (hremote : ∀ pc, m.peerConnection = some pc → pc.remoteDescription = none) :
    m.handleIceCandidateOutcomes T candidates = candidates.map (fun _ => .ok ()) ∧
    (m.handleIceCandidates T candidates).peerConnection = m.peerConnection ∧
    (m.handleIceCandidates T candidates).dataChannel = m.dataChannel ∧
    (m.handleIceCandidates T candidates).localStream = m.localStream ∧
    (m.handleIceCandidates T candidates).log =
      m.log ++ (if m.peerConnection.isSome then
        candidates.map (fun _ => Effect.consoleError "Ошибка добавления ICE кандидата:")
        else []) ∧
    ((m.handleIceCandidates T candidates).handleAnswer T answer).1.peerConnection =
      (m.handleAnswer T answer).1.peerConnection := by
  obtain ⟨h1, h2, h3⟩ := handleIceCandidates_before_remote T candidates m hremote
  refine ⟨handleIceCandidateOutcomes_ok T candidates m, h1, h2, h3,
    handleIceCandidates_before_remote_log T candidates m hremote, ?_⟩
  unfold WebRTCManager.handleAnswer
  rw [h1]
  cases hpc : m.peerConnection with
  | none => simp [h1, hpc]
  | some pc =>
    simp only []
    split
    · simpa [hpc] using h1
    · rfl

/-- A manager that has sent its offer: two candidates that come before the answer
are answered by two normal returns and leave no trace in the connection. -/
theorem candidates_before_remote_description_dropped_witness :
    (WebRTCManager.new.createOffer sampleTransport).1.handleIceCandidateOutcomes
        sampleTransport ["candidate:1", "candidate:2"] =
      ["candidate:1", "candidate:2"].map (fun _ => .ok ()) ∧
    ((WebRTCManager.new.createOffer sampleTransport).1.handleIceCandidates sampleTransport
        ["candidate:1", "candidate:2"]).peerConnection =
      (WebRTCManager.new.createOffer sampleTransport).1.peerConnection ∧
    ((WebRTCManager.new.createOffer sampleTransport).1.handleIceCandidates sampleTransport
        ["candidate:1", "candidate:2"]).dataChannel =
      (WebRTCManager.new.createOffer sampleTransport).1.dataChannel ∧
    ((WebRTCManager.new.createOffer sampleTransport).1.handleIceCandidates sampleTransport
        ["candidate:1", "candidate:2"]).localStream =
      (WebRTCManager.new.createOffer sampleTransport).1.localStream ∧
    ((WebRTCManager.new.createOffer sampleTransport).1.handleIceCandidates sampleTransport
        ["candidate:1", "candidate:2"]).log =
      (WebRTCManager.new.createOffer sampleTransport).1.log ++
        (if (WebRTCManager.new.createOffer sampleTransport).1.peerConnection.isSome then
          ["candidate:1", "candidate:2"].map
            (fun _ => Effect.consoleError "Ошибка добавления ICE кандидата:")
         else []) ∧
    (((WebRTCManager.new.createOffer sampleTransport).1.handleIceCandidates sampleTransport
        ["candidate:1", "candidate:2"]).handleAnswer sampleTransport
          { type := .answer, sdp := "v=0 o=- 7" }).1.peerConnection =
      ((WebRTCManager.new.createOffer sampleTransport).1.handleAnswer sampleTransport
          { type := .answer, sdp := "v=0 o=- 7" }).1.peerConnection :=
  candidates_before_remote_description_dropped sampleTransport
    ["candidate:1", "candidate:2"] (WebRTCManager.new.createOffer sampleTransport).1
    { type := .answer, sdp := "v=0 o=- 7" }
    (by intro pc hpc; cases hpc; rfl)

/-- C8 fails: a candidate that comes before any connection exists, and one that comes
after the offer and before the answer, are not applied once the answer has set the
remote description. -/
theorem early_candidates_lost :
    (((((WebRTCManager.new.handleIceCandidate sampleTransport "candidate:1").1.createOffer
        sampleTransport).1.handleIceCandidate sampleTransport "candidate:2").1.handleAnswer
          sampleTransport { type := .answer, sdp := "v=0 o=- 7" }).1.peerConnection.map
            RTCPeerConnection.candidates) = some [] ∧
    (((((WebRTCManager.new.handleIceCandidate sampleTransport "candidate:1").1.createOffer
        sampleTransport).1.handleIceCandidate sampleTransport "candidate:2").1.handleAnswer
          sampleTransport { type := .answer, sdp := "v=0 o=- 7" }).1.peerConnection.map
            RTCPeerConnection.remoteDescription) =
      some (some { type := .answer, sdp := "v=0 o=- 7" }) := by
  refine ⟨rfl, rfl⟩

/-- C9, as the code has it: `createOffer` on a manager whose connection already holds a
local offer does not fail; it has the connection generate the next offer, sets it as
the local description in place of the first one, and returns it. -/
theorem createOffer_again_replaces_offer (T : Transport) (m : WebRTCManager)
    (pc : RTCPeerConnection) (hpc : m.peerConnection = some pc)
    (hstate : pc.signalingState = .haveLocalOffer) :
    (m.createOffer T).2 = .ok { type := .offer, sdp := T.sdpText pc.generated } ∧
    (m.createOffer T).1.peerConnection =
      some { pc with localDescription := some { type := .offer, sdp := T.sdpText pc.generated },
                     generated := pc.generated + 1 } := by
  obtain ⟨st, loc, rem, cands, ice, snd, gen⟩ := pc
  simp only at hstate
  subst hstate
  simp [WebRTCManager.createOffer, WebRTCManager.ensurePeerConnection, hpc,
    RTCPeerConnection.createOffer, RTCPeerConnection.setLocalDescription]

/-- A second `createOffer` right after the first: it returns the second offer. -/
theorem createOffer_again_replaces_offer_witness :
    ((WebRTCManager.new.createOffer sampleTransport).1.createOffer sampleTransport).2 =
        .ok { type := .offer, sdp := sampleTransport.sdpText 1 } ∧
    ((WebRTCManager.new.createOffer sampleTransport).1.createOffer
        sampleTransport).1.peerConnection =
      some { signalingState := .haveLocalOffer,
             localDescription := some { type := .offer, sdp := sampleTransport.sdpText 1 },
             remoteDescription := none, candidates := [], iceConnectionState := .new,
             senders := [], generated := 2 } :=
  createOffer_again_replaces_offer sampleTransport
    (WebRTCManager.new.createOffer sampleTransport).1
    { signalingState := .haveLocalOffer,
      localDescription := some { type := .offer, sdp := sampleTransport.sdpText 0 },
      remoteDescription := none, candidates := [], iceConnectionState := .new,
      senders := [], generated := 1 } rfl rfl

/-- C9 fails: the second `createOffer` ends without an error and the local description
is no longer the one the first call set. -/
theorem createOffer_twice_no_error :
    ((WebRTCManager.new.createOffer sampleTransport).1.createOffer sampleTransport).2 =
        .ok { type := .offer, sdp := "v=0 o=- 1" } ∧
    (WebRTCManager.new.createOffer sampleTransport).1.peerConnection.map
        RTCPeerConnection.localDescription =
      some (some { type := .offer, sdp := "v=0 o=- 0" }) ∧
    ((WebRTCManager.new.createOffer sampleTransport).1.createOffer
        sampleTransport).1.peerConnection.map RTCPeerConnection.localDescription =
      some (some { type := .offer, sdp := "v=0 o=- 1" }) := by
  refine ⟨rfl, rfl, rfl⟩

/-- C10: an answer that comes while the manager has no connection, or a connection
that is not in `have-local-offer` (no offer of this manager is waiting for an answer),
changes nothing: the manager, its log and the connection with its remote description
are as before.  The call returns, or is rejected with `InvalidStateError`; it never
runs `handleDisconnect`. -/
theorem handleAnswer_outside_offerSent_ignored (T : Transport) (m : WebRTCManager)
    (answer : SessionDescription) (htype : answer.type = .answer)
    (hstate : ∀ pc, m.peerConnection = some pc → pc.signalingState ≠ .haveLocalOffer) :
    (m.handleAnswer T answer).1 = m ∧
    ((m.handleAnswer T answer).2 = .ok () ∨
      (m.handleAnswer T answer).2 = .error .invalidStateError) := by
  obtain ⟨ty, sdp⟩ := answer
  simp only at htype
  subst htype
  unfold WebRTCManager.handleAnswer
  cases hpc : m.peerConnection with
  | none => simp
  | some pc =>
    have h := hstate pc hpc
    obtain ⟨st, loc, rem, cands, ice, snd, gen⟩ := pc
    cases st <;> simp_all [RTCPeerConnection.setRemoteDescription]

/-- A responder, made by `handleOffer` on a new manager: an answer changes nothing. -/
theorem handleAnswer_outside_offerSent_ignored_witness :
    (((WebRTCManager.new.handleOffer sampleTransport
        { type := .offer, sdp := "v=0 o=- 9" }).1.handleAnswer sampleTransport
          { type := .answer, sdp := "v=0 o=- 7" }).1 =
      (WebRTCManager.new.handleOffer sampleTransport { type := .offer, sdp := "v=0 o=- 9" }).1) ∧
    ((((WebRTCManager.new.handleOffer sampleTransport
        { type := .offer, sdp := "v=0 o=- 9" }).1.handleAnswer sampleTransport
          { type := .answer, sdp := "v=0 o=- 7" }).2 = .ok ()) ∨
     (((WebRTCManager.new.handleOffer sampleTransport
        { type := .offer, sdp := "v=0 o=- 9" }).1.handleAnswer sampleTransport
          { type := .answer, sdp := "v=0 o=- 7" }).2 = .error .invalidStateError)) :=
  handleAnswer_outside_offerSent_ignored sampleTransport
    (WebRTCManager.new.handleOffer sampleTransport { type := .offer, sdp := "v=0 o=- 9" }).1
    { type := .answer, sdp := "v=0 o=- 7" } rfl
    (by intro pc hpc; cases hpc; decide)

/-! ## The reference `JSON`: reading back what was written -/

namespace RefJSON


theorem natDigitsAux_length (fuel n : Nat) (acc : List Char) (h : n < fuel) :
    acc.length + 1 ≤ (natDigitsAux fuel n acc).length := by
  induction fuel generalizing n acc with
  | zero => omega
  | succ k ih =>
    unfold natDigitsAux
    split
    · simp
    · have := ih (n / 10) (digitChar (n % 10) :: acc) (by omega)
      simp at this
      omega

theorem intDigits_length (n : Int) : 1 ≤ (intDigits n).length := by
  cases n with
  | ofNat k => simpa [intDigits, natDigits] using natDigitsAux_length (k + 1) k [] (by omega)
  | negSucc k => simp [intDigits]

mutual
theorem size_le_length : (v : Json) → size v ≤ (write v).length
  | .null => by simp [size, write]
  | .bool true => by simp [size, write]
  | .bool false => by simp [size, write]
  | .num n => by simpa [size, write] using intDigits_length n
  | .str s => by simp [size, write, quote]
  | .arr items => by
    have := sizeItems_le_length items
    simp [size, write]; omega
  | .obj members => by
    have := sizeMembers_le_length members
    simp [size, write]; omega
theorem sizeItems_le_length : (items : List Json) → sizeItems items ≤ (writeItems items).length
  | [] => by simp [sizeItems]
  | v :: rest => by
    have h1 := size_le_length v
    have h2 := sizeItemsTail_le_length rest
    simp [sizeItems, writeItems]; omega
theorem sizeItemsTail_le_length :
    (items : List Json) → sizeItems items + 1 ≤ (writeItemsTail items).length
  | [] => by simp [sizeItems, writeItemsTail]
  | v :: rest => by
    have h1 := size_le_length v
    have h2 := sizeItemsTail_le_length rest
    simp [sizeItems, writeItemsTail]; omega
theorem sizeMembers_le_length :
    (members : List (String × Json)) → sizeMembers members ≤ (writeMembers members).length
  | [] => by simp [sizeMembers]
  | (k, v) :: rest => by
    have h1 := size_le_length v
    have h2 := sizeMembersTail_le_length rest
    simp [sizeMembers, writeMembers]; omega
theorem sizeMembersTail_le_length :
    (members : List (String × Json)) →
      sizeMembers members + 1 ≤ (writeMembersTail members).length
  | [] => by simp [sizeMembers, writeMembersTail]
  | (k, v) :: rest => by
    have h1 := size_le_length v
    have h2 := sizeMembersTail_le_length rest
    simp [sizeMembers, writeMembersTail]; omega
end


theorem skipWs_cons (c : Char) (rest : List Char) (h : isWs c = false) :
    skipWs (c :: rest) = c :: rest := by
  simp [skipWs, h]

theorem digitChar_facts :
    ∀ d, d < 10 → isDigit (digitChar d) = true ∧ (digitChar d).toNat - 48 = d ∧
      (digitChar d = '0' → d = 0) := by
  decide

theorem isDigit_facts (c : Char) (h : isDigit c = true) :
    isWs c = false ∧ c ≠ '"' ∧ c ≠ '[' ∧ c ≠ '{' ∧ c ≠ '-' ∧ c ≠ 'n' ∧ c ≠ 't' ∧ c ≠ 'f' ∧
      c ≠ ']' ∧ c ≠ '}' := by
  simp only [isDigit, decide_eq_true_eq] at h
  refine ⟨?_, ?_, ?_, ?_, ?_, ?_, ?_, ?_, ?_, ?_⟩
  · simp only [isWs, decide_eq_false_iff_not, not_or]
    refine ⟨?_, ?_, ?_, ?_⟩ <;> (rintro rfl; revert h; decide)
  all_goals (rintro rfl; revert h; decide)

theorem readDigits_append (ds rest : List Char) (hds : ∀ c ∈ ds, isDigit c = true)
    (acc seen : Nat) :
    readDigits (ds ++ rest) acc seen =
      readDigits rest (ds.foldl (fun x c => x * 10 + (c.toNat - 48)) acc) (seen + ds.length) := by
  induction ds generalizing acc seen with
  | nil => simp
  | cons c tail ih =>
    have hc : isDigit c = true := hds c (by simp)
    have ht : ∀ x ∈ tail, isDigit x = true := fun x hx => hds x (by simp [hx])
    rw [List.cons_append, readDigits, if_pos hc, ih ht, List.foldl_cons, List.length_cons]
    congr 1
    omega

theorem readDigits_stops (rest : List Char) (h : stops rest = true) (acc seen : Nat) :
    readDigits rest acc seen = (acc, seen, rest) := by
  cases rest with
  | nil => rfl
  | cons c tail =>
    have hc : isDigit c = false := by
      simp only [stops, decide_eq_true_eq] at h
      rcases h with rfl | rfl | rfl <;> decide
    simp [readDigits, hc]

theorem startsFraction_stops (rest : List Char) (h : stops rest = true) :
    startsFraction rest = false := by
  cases rest with
  | nil => rfl
  | cons c tail =>
    simp only [stops, decide_eq_true_eq] at h
    rcases h with rfl | rfl | rfl <;> simp [startsFraction]

theorem natDigitsAux_digits (fuel n : Nat) (acc : List Char)
    (hacc : ∀ c ∈ acc, isDigit c = true) :
    ∀ c ∈ natDigitsAux fuel n acc, isDigit c = true := by
  induction fuel generalizing n acc with
  | zero => simpa [natDigitsAux] using hacc
  | succ k ih =>
    unfold natDigitsAux
    split
    · intro c hc
      rcases List.mem_cons.mp hc with rfl | hc
      · exact (digitChar_facts n (by omega)).1
      · exact hacc c hc
    · apply ih
      intro c hc
      rcases List.mem_cons.mp hc with rfl | hc
      · exact (digitChar_facts (n % 10) (by omega)).1
      · exact hacc c hc

theorem natDigitsAux_value (fuel n : Nat) (acc : List Char) (h : n < fuel) :
    (natDigitsAux fuel n acc).foldl (fun x c => x * 10 + (c.toNat - 48)) 0 =
      acc.foldl (fun x c => x * 10 + (c.toNat - 48)) n := by
  induction fuel generalizing n acc with
  | zero => omega
  | succ k ih =>
    unfold natDigitsAux
    split
    · rename_i hn
      simp [(digitChar_facts n hn).2.1]
    · rw [ih (n / 10) _ (by omega)]
      simp only [List.foldl_cons, (digitChar_facts (n % 10) (by omega)).2.1]
      congr 1
      omega

theorem natDigitsAux_head (fuel n : Nat) (acc : List Char) (h : n < fuel) :
    ∃ c tail, natDigitsAux fuel n acc = c :: tail ∧ isDigit c = true ∧
      (c = '0' → n = 0 ∧ tail = acc) := by
  induction fuel generalizing n acc with
  | zero => omega
  | succ k ih =>
    unfold natDigitsAux
    split
    · rename_i hn
      exact ⟨digitChar n, acc, rfl, (digitChar_facts n hn).1,
        fun h0 => ⟨(digitChar_facts n hn).2.2 h0, rfl⟩⟩
    · rename_i hn
      obtain ⟨c, tail, heq, hc, hzero⟩ := ih (n / 10) (digitChar (n % 10) :: acc) (by omega)
      refine ⟨c, tail, heq, hc, fun h0 => ?_⟩
      have := (hzero h0).1
      omega

theorem readNat_natDigits (n : Nat) (rest : List Char) (h : stops rest = true) :
    readNat (natDigits n ++ rest) = some (n, rest) := by
  have hdig := natDigitsAux_digits (n + 1) n [] (by simp)
  have hval := natDigitsAux_value (n + 1) n [] (by omega)
  obtain ⟨c, tail, hhead, hc, hzero⟩ := natDigitsAux_head (n + 1) n [] (by omega)
  unfold readNat natDigits
  rw [readDigits_append _ _ hdig, readDigits_stops _ h, hval]
  simp only [List.foldl_nil, Nat.zero_add]
  rw [hhead]
  have hlen : (c :: tail).length ≠ 0 := by simp
  simp only [hlen, if_false, List.cons_append, List.head?_cons, Option.some.injEq,
    startsFraction_stops rest h, Bool.false_eq_true]
  by_cases h0 : c = '0'
  · simp [h0, (hzero h0).2]
  · simp [h0]


theorem unicodeEscape_low :
    ∀ n, n < 32 →
      unicodeEscape '0' '0' (hexDigit (n / 16)) (hexDigit (n % 16)) = some (Char.ofNat n) := by
  decide

theorem readString_end (text acc : List Char) :
    readString ('"' :: text) acc = some (String.mk acc.reverse, text) := by
  rw [readString.eq_def]
  simp

theorem readString_simple (e ch : Char) (text acc : List Char) (hu : e ≠ 'u')
    (he : simpleEscape e = some ch) :
    readString ('\\' :: e :: text) acc = readString text (ch :: acc) := by
  rw [readString.eq_def]
  simp [hu, he]

theorem readString_unicode (a b x d ch : Char) (text acc : List Char)
    (he : unicodeEscape a b x d = some ch) :
    readString ('\\' :: 'u' :: a :: b :: x :: d :: text) acc = readString text (ch :: acc) := by
  rw [readString.eq_def]
  simp [he]

theorem readString_plain (c : Char) (text acc : List Char) (h1 : c ≠ '"') (h2 : c ≠ '\\')
    (h3 : ¬ c.toNat < 32) :
    readString (c :: text) acc = readString text (c :: acc) := by
  rw [readString.eq_def]
  simp [h1, h2, h3]

theorem readString_quoteChar (c : Char) (text acc : List Char) :
    readString (quoteChar c ++ text) acc = readString text (c :: acc) := by
  unfold quoteChar
  split
  · rename_i h; subst h; exact readString_simple _ _ _ _ (by decide) rfl
  split
  · rename_i h; subst h; exact readString_simple _ _ _ _ (by decide) rfl
  split
  · rename_i h; subst h; exact readString_simple _ _ _ _ (by decide) rfl
  split
  · rename_i h; subst h; exact readString_simple _ _ _ _ (by decide) rfl
  split
  · rename_i h; subst h; exact readString_simple _ _ _ _ (by decide) rfl
  split
  · rename_i h; subst h; exact readString_simple _ _ _ _ (by decide) rfl
  split
  · rename_i h; subst h; exact readString_simple _ _ _ _ (by decide) rfl
  split
  · rename_i hlow
    have hesc := unicodeEscape_low c.toNat hlow
    rw [Char.ofNat_toNat] at hesc
    exact readString_unicode _ _ _ _ _ _ _ hesc
  · rename_i h1 h2 _ _ _ _ _ hlow
    exact readString_plain c text acc h1 h2 hlow

theorem readString_quoteChars (s text acc : List Char) :
    readString (quoteChars s ++ '"' :: text) acc = some (String.mk (acc.reverse ++ s), text) := by
  induction s generalizing acc with
  | nil => simp [quoteChars, readString_end]
  | cons c tail ih =>
    rw [quoteChars, List.append_assoc, readString_quoteChar, ih]
    simp

theorem readString_quote (s : String) (text : List Char) :
    readString (quoteChars s.data ++ '"' :: text) [] = some (s, text) := by
  rw [readString_quoteChars]
  rfl


theorem write_head (v : Json) (text : List Char) :
    ∃ c tail, write v ++ text = c :: tail ∧ isWs c = false ∧ c ≠ ']' := by
  cases v with
  | null => exact ⟨'n', _, rfl, by decide, by decide⟩
  | bool b => cases b <;> exact ⟨_, _, rfl, by decide, by decide⟩
  | num n =>
    cases n with
    | ofNat k =>
      obtain ⟨c, tail, hhead, hc, _⟩ := natDigitsAux_head (k + 1) k [] (by omega)
      have hf := isDigit_facts c hc
      refine ⟨c, tail ++ text, ?_, hf.1, hf.2.2.2.2.2.2.2.2.1⟩
      simp [write, intDigits, natDigits, hhead]
    | negSucc k => exact ⟨'-', _, rfl, by decide, by decide⟩
  | str s => exact ⟨'"', _, rfl, by decide, by decide⟩
  | arr items => exact ⟨'[', _, rfl, by decide, by decide⟩
  | obj members => exact ⟨'{', _, rfl, by decide, by decide⟩

theorem stops_writeItemsTail (items : List Json) (text : List Char) :
    stops (writeItemsTail items ++ text) = true := by
  cases items <;> simp [writeItemsTail, stops]

theorem stops_writeMembersTail (members : List (String × Json)) (text : List Char) :
    stops (writeMembersTail members ++ text) = true := by
  rcases members with _ | ⟨⟨k, v⟩, rest⟩ <;> simp [writeMembersTail, stops]

theorem quote_append (s : String) (text : List Char) :
    quote s ++ text = '"' :: (quoteChars s.data ++ '"' :: text) := by
  simp [quote]

mutual
theorem readValue_write : (v : Json) → ∀ (fuel : Nat) (text : List Char),
    size v ≤ fuel → stops text = true → readValue fuel (write v ++ text) = some (v, text)
  | .null, fuel, text, hfuel, _ => by
    obtain ⟨f, rfl⟩ : ∃ f, fuel = f + 1 := ⟨fuel - 1, by simp [size] at hfuel; omega⟩
    rw [readValue]
    simp [write, skipWs, isWs, readName, List.isPrefixOf]
  | .bool true, fuel, text, hfuel, _ => by
    obtain ⟨f, rfl⟩ : ∃ f, fuel = f + 1 := ⟨fuel - 1, by simp [size] at hfuel; omega⟩
    rw [readValue]
    simp [write, skipWs, isWs, readName, List.isPrefixOf]
  | .bool false, fuel, text, hfuel, _ => by
    obtain ⟨f, rfl⟩ : ∃ f, fuel = f + 1 := ⟨fuel - 1, by simp [size] at hfuel; omega⟩
    rw [readValue]
    simp [write, skipWs, isWs, readName, List.isPrefixOf]
  | .num (.ofNat k), fuel, text, hfuel, hstop => by
    obtain ⟨f, rfl⟩ : ∃ f, fuel = f + 1 := ⟨fuel - 1, by simp [size] at hfuel; omega⟩
    obtain ⟨c, tail, hhead, hc, _⟩ := natDigitsAux_head (k + 1) k [] (by omega)
    have hf := isDigit_facts c hc
    have hread := readNat_natDigits k text hstop
    have hw : write (.num (.ofNat k)) ++ text = c :: (tail ++ text) := by
      simp [write, intDigits, natDigits, hhead]
    rw [natDigits, hhead, List.cons_append] at hread
    rw [readValue, hw, skipWs_cons _ _ hf.1]
    simp [hf, hread]
  | .num (.negSucc k), fuel, text, hfuel, hstop => by
    obtain ⟨f, rfl⟩ : ∃ f, fuel = f + 1 := ⟨fuel - 1, by simp [size] at hfuel; omega⟩
    have hread := readNat_natDigits (k + 1) text hstop
    rw [readValue]
    simp [write, intDigits, skipWs, isWs, hread, Int.negSucc_eq]
  | .str s, fuel, text, hfuel, _ => by
    obtain ⟨f, rfl⟩ : ∃ f, fuel = f + 1 := ⟨fuel - 1, by simp [size] at hfuel; omega⟩
    rw [readValue, write, quote_append]
    simp [skipWs, isWs, readString_quote]
  | .arr [], fuel, text, hfuel, _ => by
    obtain ⟨f, rfl⟩ : ∃ f, fuel = f + 1 := ⟨fuel - 1, by simp [size] at hfuel; omega⟩
    rw [readValue]
    simp [write, writeItems, skipWs, isWs]
  | .arr (v :: rest), fuel, text, hfuel, _ => by
    obtain ⟨f, rfl⟩ : ∃ f, fuel = f + 1 := ⟨fuel - 1, by simp [size] at hfuel; omega⟩
    have hitems := readItems_write (v :: rest) f text [] (by simp)
      (by simp [size] at hfuel; omega)
    obtain ⟨c, tail, hhead, hws, hne⟩ := write_head v (writeItemsTail rest ++ text)
    have hw : write (.arr (v :: rest)) ++ text = '[' :: c :: tail := by
      simp [write, writeItems, ← hhead]
    rw [writeItems, List.append_assoc, hhead] at hitems
    rw [readValue, hw, skipWs_cons _ _ (by decide)]
    simp [skipWs_cons _ _ hws, hne, hitems]
  | .obj [], fuel, text, hfuel, _ => by
    obtain ⟨f, rfl⟩ : ∃ f, fuel = f + 1 := ⟨fuel - 1, by simp [size] at hfuel; omega⟩
    rw [readValue]
    simp [write, writeMembers, skipWs, isWs]
  | .obj ((k, v) :: rest), fuel, text, hfuel, _ => by
    obtain ⟨f, rfl⟩ : ∃ f, fuel = f + 1 := ⟨fuel - 1, by simp [size] at hfuel; omega⟩
    have hmembers := readMembers_write ((k, v) :: rest) f text [] (by simp)
      (by simp [size] at hfuel; omega)
    have hw : write (.obj ((k, v) :: rest)) ++ text =
        '{' :: '"' :: (quoteChars k.data ++
          '"' :: ':' :: (write v ++ (writeMembersTail rest ++ text))) := by
      simp [write, writeMembers, quote]
    have hm : writeMembers ((k, v) :: rest) ++ text =
        '"' :: (quoteChars k.data ++
          '"' :: ':' :: (write v ++ (writeMembersTail rest ++ text))) := by
      simp [writeMembers, quote]
    rw [hm] at hmembers
    rw [readValue, hw, skipWs_cons _ _ (by decide)]
    simp [skipWs_cons _ _ (show isWs '"' = false by decide), hmembers]
theorem readItems_write : (items : List Json) → ∀ (fuel : Nat) (text : List Char)
    (acc : List Json), items ≠ [] → sizeItems items ≤ fuel →
    readItems fuel (writeItems items ++ text) acc = some (.arr (acc ++ items), text)
  | [], _, _, _, hne, _ => absurd rfl hne
  | [v], fuel, text, acc, _, hfuel => by
    obtain ⟨f, rfl⟩ : ∃ f, fuel = f + 1 := ⟨fuel - 1, by simp [sizeItems] at hfuel; omega⟩
    have hv := readValue_write v f (']' :: text) (by simp [sizeItems] at hfuel; omega)
      (by simp [stops])
    rw [readItems]
    simp [writeItems, writeItemsTail, hv, skipWs, isWs]
  | v :: w :: rest, fuel, text, acc, _, hfuel => by
    obtain ⟨f, rfl⟩ : ∃ f, fuel = f + 1 := ⟨fuel - 1, by simp [sizeItems] at hfuel; omega⟩
    have hv := readValue_write v f (',' :: (writeItems (w :: rest) ++ text))
      (by simp [sizeItems] at hfuel; omega) (by simp [stops])
    have hrest := readItems_write (w :: rest) f text (acc ++ [v]) (by simp)
      (by simp [sizeItems] at hfuel ⊢; omega)
    have hw : writeItems (v :: w :: rest) ++ text =
        write v ++ ',' :: (writeItems (w :: rest) ++ text) := by
      simp [writeItems, writeItemsTail]
    rw [readItems, hw, hv]
    simp [skipWs, isWs, hrest]
theorem readMembers_write : (members : List (String × Json)) → ∀ (fuel : Nat)
    (text : List Char) (acc : List (String × Json)), members ≠ [] →
    sizeMembers members ≤ fuel →
    readMembers fuel (writeMembers members ++ text) acc = some (.obj (acc ++ members), text)
  | [], _, _, _, hne, _ => absurd rfl hne
  | [(k, v)], fuel, text, acc, _, hfuel => by
    obtain ⟨f, rfl⟩ : ∃ f, fuel = f + 1 := ⟨fuel - 1, by simp [sizeMembers] at hfuel; omega⟩
    have hv := readValue_write v f ('}' :: text) (by simp [sizeMembers] at hfuel; omega)
      (by simp [stops])
    have hw : writeMembers [(k, v)] ++ text =
        '"' :: (quoteChars k.data ++ '"' :: ':' :: (write v ++ '}' :: text)) := by
      simp [writeMembers, writeMembersTail, quote]
    rw [readMembers, hw, skipWs_cons _ _ (by decide)]
    simp [readString_quote, skipWs, isWs, hv]
  | (k, v) :: m :: rest, fuel, text, acc, _, hfuel => by
    obtain ⟨f, rfl⟩ : ∃ f, fuel = f + 1 := ⟨fuel - 1, by simp [sizeMembers] at hfuel; omega⟩
    have hv := readValue_write v f (',' :: (writeMembers (m :: rest) ++ text))
      (by simp [sizeMembers] at hfuel; omega) (by simp [stops])
    have hrest := readMembers_write (m :: rest) f text (acc ++ [(k, v)]) (by simp)
      (by simp [sizeMembers] at hfuel ⊢; omega)
    have hw : writeMembers ((k, v) :: m :: rest) ++ text =
        '"' :: (quoteChars k.data ++
          '"' :: ':' :: (write v ++ ',' :: (writeMembers (m :: rest) ++ text))) := by
      obtain ⟨k2, v2⟩ := m
      simp [writeMembers, writeMembersTail, quote]
    rw [readMembers, hw, skipWs_cons _ _ (by decide)]
    simp [readString_quote, skipWs, isWs, hv, hrest]
end

/-- The reference `JSON.parse` gives back every value the reference `JSON.stringify`
has written. -/
theorem parse_stringify (v : Json) : parse (stringify v) = some v := by
  have h := readValue_write v ((write v).length + 1) [] (by have := size_le_length v; omega) rfl
  simp only [List.append_nil] at h
  simp [parse, stringify, h, skipWs]

end RefJSON

/-! ## Sending and receiving -/

theorem deliveredMessages_append (xs ys : List Effect) :
    deliveredMessages (xs ++ ys) = deliveredMessages xs ++ deliveredMessages ys := by
  induction xs with
  | nil => rfl
  | cons e rest ih => cases e <;> simp [deliveredMessages, ih]

theorem textMessage_fields (content : String) (timestamp : Nat) (sender : Json) :
    (textMessage content timestamp sender).get? "type" = some (.str "text") ∧
    (textMessage content timestamp sender).get? "content" = some (.str content) ∧
    (textMessage content timestamp sender).get? "timestamp" = some (.num timestamp) := by
  refine ⟨?_, ?_, ?_⟩ <;> simp [textMessage, Json.get?, List.find?]

theorem sendMessage_open_log (J : JSONApi) (stored : Option String) (now : Nat)
    (sender : WebRTCManager) (message : String) (user : Json)
    (hopen : sender.channelOpen = true) (huser : parseStored J stored = some user) :
    sentPayloads (sender.sendMessage J stored now message).1.log =
      sentPayloads sender.log ++ [J.stringify (textMessage message now user)] := by
  unfold WebRTCManager.sendMessage
  cases hdc : sender.dataChannel with
  | none => simp [WebRTCManager.channelOpen, hdc] at hopen
  | some dc =>
    have hrs : dc.readyState = .open := by
      simpa [WebRTCManager.channelOpen, hdc] using hopen
    simp [hrs, huser, WebRTCManager.emit, sentPayloads_append, sentPayloads]

theorem onDataChannelMessage_parsed_log (J : JSONApi) (throws : Json → Bool) (later : Nat)
    (receiver : WebRTCManager) (data : String) (v : Json) (hparse : J.parse data = some v) :
    deliveredMessages (receiver.onDataChannelMessage J throws later data).1.log =
      deliveredMessages receiver.log ++ v ::
        (if throws v = true then [rawTextMessage data later] else []) := by
  unfold WebRTCManager.onDataChannelMessage
  simp only [hparse]
  by_cases hthrow : throws v = true
  · simp [hthrow, WebRTCManager.emit, deliveredMessages_append, deliveredMessages]
  · simp [hthrow, WebRTCManager.emit, deliveredMessages_append, deliveredMessages]

/-- For any `JSON` object: if `JSON.parse` gives back the object `JSON.stringify` was
given, then what `sendMessage` hands to an open channel is read back by the receiver's
`onmessage` handler as the object that was written, and this object is what the first
call of `onMessage` gets. -/
theorem round_trip_of_json_law (J : JSONApi) (stored : Option String) (now later : Nat)
    (sender receiver : WebRTCManager) (message : String) (user : Json)
    (throws : Json → Bool)
    (hopen : sender.channelOpen = true) (huser : parseStored J stored = some user)
    (hjson : J.parse (J.stringify (textMessage message now user)) =
      some (textMessage message now user)) :
    sentPayloads (sender.sendMessage J stored now message).1.log =
      sentPayloads sender.log ++ [J.stringify (textMessage message now user)] ∧
    deliveredMessages
        (receiver.onDataChannelMessage J throws later
          (J.stringify (textMessage message now user))).1.log =
      deliveredMessages receiver.log ++ textMessage message now user ::
        (if throws (textMessage message now user) = true then
          [rawTextMessage (J.stringify (textMessage message now user)) later] else []) :=
  ⟨sendMessage_open_log J stored now sender message user hopen huser,
   onDataChannelMessage_parsed_log J throws later receiver _ _ hjson⟩

/-- C7: for every message text, on an open channel `sendMessage(message)` hands one
payload to the channel (the stored user entry being one that parses); when the
receiving side's `onmessage` handler gets that payload as `event.data`, the first call
of the receiver's `onMessage` carries the object the sender wrote: its `type` is
`'text'`, its `content` is `message` and its `timestamp` is the sender's.  There is no
second call unless the callback throws.  `JSON` is the reference implementation, whose
`parse` is proved to undo its `stringify`. -/
theorem message_round_trip (stored : Option String) (now later : Nat)
    (sender receiver : WebRTCManager) (message : String) (user : Json)
    (throws : Json → Bool)
    (hopen : sender.channelOpen = true) (huser : parseStored refJSON stored = some user) :
    sentPayloads (sender.sendMessage refJSON stored now message).1.log =
      sentPayloads sender.log ++ [refJSON.stringify (textMessage message now user)] ∧
    deliveredMessages
        (receiver.onDataChannelMessage refJSON throws later
          (refJSON.stringify (textMessage message now user))).1.log =
      deliveredMessages receiver.log ++ textMessage message now user ::
        (if throws (textMessage message now user) = true then
          [rawTextMessage (refJSON.stringify (textMessage message now user)) later]
         else []) ∧
    (textMessage message now user).get? "type" = some (.str "text") ∧
    (textMessage message now user).get? "content" = some (.str message) ∧
    (textMessage message now user).get? "timestamp" = some (.num now) := by
  have hjson : refJSON.parse (refJSON.stringify (textMessage message now user)) =
      some (textMessage message now user) :=
    RefJSON.parse_stringify (textMessage message now user)
  refine ⟨?_, ?_, textMessage_fields message now user⟩
  · exact sendMessage_open_log refJSON stored now sender message user hopen huser
  · exact onDataChannelMessage_parsed_log refJSON throws later receiver _ _ hjson

/-- The text `say "hello"\` with a line break after it, sent at time 1700000000000 with
the stored user `firstName: Ann`. -/
theorem message_round_trip_witness :
    sentPayloads
        (openManager.sendMessage refJSON (some "\x7b\"firstName\":\"Ann\"\x7d") 1700000000000
          "say \"hello\"\\\n").1.log =
      sentPayloads openManager.log ++
        [refJSON.stringify (textMessage "say \"hello\"\\\n" 1700000000000
          (.obj [("firstName", .str "Ann")]))] ∧
    deliveredMessages
        (WebRTCManager.new.onDataChannelMessage refJSON (fun _ => false) 1700000000500
          (refJSON.stringify (textMessage "say \"hello\"\\\n" 1700000000000
            (.obj [("firstName", .str "Ann")])))).1.log =
      deliveredMessages WebRTCManager.new.log ++
        textMessage "say \"hello\"\\\n" 1700000000000 (.obj [("firstName", .str "Ann")]) ::
        (if (fun _ => false) (textMessage "say \"hello\"\\\n" 1700000000000
            (.obj [("firstName", .str "Ann")])) = true then
          [rawTextMessage (refJSON.stringify (textMessage "say \"hello\"\\\n" 1700000000000
            (.obj [("firstName", .str "Ann")]))) 1700000000500] else []) ∧
    (textMessage "say \"hello\"\\\n" 1700000000000 (.obj [("firstName", .str "Ann")])).get?
        "type" = some (.str "text") ∧
    (textMessage "say \"hello\"\\\n" 1700000000000 (.obj [("firstName", .str "Ann")])).get?
        "content" = some (.str "say \"hello\"\\\n") ∧
    (textMessage "say \"hello\"\\\n" 1700000000000 (.obj [("firstName", .str "Ann")])).get?
        "timestamp" = some (.num 1700000000000) :=
  message_round_trip (some "\x7b\"firstName\":\"Ann\"\x7d") 1700000000000 1700000000500
    openManager WebRTCManager.new "say \"hello\"\\\n" (.obj [("firstName", .str "Ann")])
    (fun _ => false) rfl rfl

/-! ## Errors at the manager's boundary -/

/-- In the responder's state after `handleOffer`, `handleAnswer` is rejected with the
connection's `InvalidStateError`: the method has no `try`. -/
theorem handleAnswer_rejection_propagates :
    ((WebRTCManager.new.handleOffer sampleTransport
        { type := .offer, sdp := "v=0 o=- 9" }).1.handleAnswer sampleTransport
          { type := .answer, sdp := "v=0 o=- 7" }).2 = .error .invalidStateError := by
  rfl

/-- C11 fails in the code: on an open channel, with a stored `googleChatsUser` entry
that `JSON.parse` rejects, `sendMessage` throws the `SyntaxError` of `JSON.parse` to
its caller, and the manager is as before. -/
theorem sendMessage_unparsable_store_throws (J : JSONApi) (stored : Option String)
    (now : Nat) (m : WebRTCManager) (message : String) (hopen : m.channelOpen = true)
    (hstored : parseStored J stored = none) :
    m.sendMessage J stored now message = (m, .error .syntaxError) := by
  unfold WebRTCManager.sendMessage
  cases hdc : m.dataChannel with
  | none => simp [WebRTCManager.channelOpen, hdc] at hopen
  | some dc =>
    have hrs : dc.readyState = .open := by
      simpa [WebRTCManager.channelOpen, hdc] using hopen
    simp [hrs, hstored]

/-- The open manager and the stored text `oops` after an opening brace. -/
theorem sendMessage_unparsable_store_throws_witness :
    openManager.sendMessage refJSON (some "\x7boops") 1700000000000 "hello" =
      (openManager, .error .syntaxError) :=
  sendMessage_unparsable_store_throws refJSON (some "\x7boops") 1700000000000 openManager
    "hello" rfl rfl

/-! ## `initialize` -/

/-- C12: whatever the outcome of the microphone request, `initialize` resolves to
`true`; a granted stream becomes `localStream`, and after a rejected request
`localStream` is what it was, `null` on a new manager.  The connection and the channel
are untouched. -/
theorem initialize_resolves_true {ε : Type} (media : Except ε (List Track))
    (m : WebRTCManager) :
    ( WebRTCManager.initialize media m).2 = .ok true ∧
    ( WebRTCManager.initialize media m).1.localStream =
      (match media with
       | .ok stream => some stream
       | .error _ => m.localStream) ∧
    ( WebRTCManager.initialize media WebRTCManager.new).1.localStream =
      (match media with
       | .ok stream => some stream
       | .error _ => none) ∧
    ( WebRTCManager.initialize media m).1.peerConnection = m.peerConnection ∧
    ( WebRTCManager.initialize media m).1.dataChannel = m.dataChannel := by
  cases media <;> simp [ WebRTCManager.initialize, WebRTCManager.emit, WebRTCManager.new]

/-! ## The `onmessage` handler -/

theorem rawTextMessage_fields (data : String) (timestamp : Nat) :
    (rawTextMessage data timestamp).get? "type" = some (.str "text") ∧
    (rawTextMessage data timestamp).get? "content" = some (.str data) := by
  refine ⟨?_, ?_⟩ <;> simp [rawTextMessage, Json.get?, List.find?]

theorem onDataChannelMessage_unparsed_log (J : JSONApi) (throws : Json → Bool) (now : Nat)
    (m : WebRTCManager) (data : String) (hparse : J.parse data = none) :
    deliveredMessages (m.onDataChannelMessage J throws now data).1.log =
      deliveredMessages m.log ++ [rawTextMessage data now] := by
  unfold WebRTCManager.onDataChannelMessage
  simp [hparse, WebRTCManager.emit, deliveredMessages_append, deliveredMessages]

/-- C13: the `onmessage` handler calls `onMessage` with the parsed value when
`event.data` is JSON, and with an object whose `type` is `'text'` and whose `content`
is `event.data` itself when it is not; in the second case this is its only call. -/
theorem onmessage_parsed_or_text (J : JSONApi) (throws : Json → Bool) (now : Nat)
    (m : WebRTCManager) (data : String) :
    deliveredMessages (m.onDataChannelMessage J throws now data).1.log =
      deliveredMessages m.log ++
        (match J.parse data with
         | some v => v :: (if throws v = true then [rawTextMessage data now] else [])
         | none => [rawTextMessage data now]) ∧
    (rawTextMessage data now).get? "type" = some (.str "text") ∧
    (rawTextMessage data now).get? "content" = some (.str data) := by
  refine ⟨?_, rawTextMessage_fields data now⟩
  cases hparse : J.parse data with
  | none => exact onDataChannelMessage_unparsed_log J throws now m data hparse
  | some v => exact onDataChannelMessage_parsed_log J throws now m data v hparse

/-- C16 fails in the code: when `event.data` is JSON and the `onMessage` callback throws
on the parsed value, the `catch` block that was written for text that is not JSON runs
too, and `onMessage` is called a second time, with the raw text. -/
theorem onmessage_called_twice_when_callback_throws (J : JSONApi) (throws : Json → Bool)
    (now : Nat) (m : WebRTCManager) (data : String) (v : Json)
    (hparse : J.parse data = some v) (hthrows : throws v = true) :
    deliveredMessages (m.onDataChannelMessage J throws now data).1.log =
      deliveredMessages m.log ++ [v, rawTextMessage data now] := by
  rw [onDataChannelMessage_parsed_log J throws now m data v hparse]
  simp [hthrows]

/-- The text `[1]` and a callback that throws on every value: two calls. -/
theorem onmessage_called_twice_when_callback_throws_witness :
    deliveredMessages
        (WebRTCManager.new.onDataChannelMessage refJSON (fun _ => true) 1700000000500
          "[1]").1.log =
      deliveredMessages WebRTCManager.new.log ++
        [.arr [.num 1], rawTextMessage "[1]" 1700000000500] :=
  onmessage_called_twice_when_callback_throws refJSON (fun _ => true) 1700000000500
    WebRTCManager.new "[1]" (.arr [.num 1]) rfl rfl

/-! ## The service worker -/

namespace ServiceWorker

theorem foldl_delete (names : List String) (caches : List (String × List (String × Response))) :
    (names.foldl
      (fun acc cacheName => if cacheName ≠ CACHE_NAME then acc.delete cacheName else acc)
      ({ caches := caches } : CacheStorage)).caches =
    caches.filter (fun c => !(names.any (fun n => n != CACHE_NAME && c.1 == n))) := by
  induction names generalizing caches with
  | nil => simp
  | cons n rest ih =>
    rw [List.foldl_cons]
    by_cases hn : n = CACHE_NAME
    · rw [if_neg (by simpa using hn), ih]
      apply List.filter_congr
      intro c _
      simp [hn]
    · rw [if_pos hn, CacheStorage.delete, ih, List.filter_filter]
      apply List.filter_congr
      intro c _
      have hne : (n != CACHE_NAME) = true := by simpa using hn
      simp only [List.any_cons, Bool.not_or, hne, Bool.true_and]
      exact Bool.and_comm _ _

/-- C14: after the `activate` listener the caches that are left are exactly the caches
that were there under the name `CACHE_NAME`, with their entries: every cache of another
name has been deleted and the one named `CACHE_NAME` has not. -/
theorem activate_keeps_current_cache (store : CacheStorage) :
    activate store = { caches := store.caches.filter (fun c => c.1 == CACHE_NAME) } ∧
    (activate store).keys = store.keys.filter (fun name => name == CACHE_NAME) ∧
    CACHE_NAME = "googlechats-v2" := by
  have hcaches : (activate store).caches =
      store.caches.filter (fun c => c.1 == CACHE_NAME) := by
    obtain ⟨caches⟩ := store
    simp only [activate, CacheStorage.keys]
    rw [foldl_delete]
    apply List.filter_congr
    intro c hc
    by_cases hname : c.1 = CACHE_NAME
    · simp only [hname, beq_self_eq_true, Bool.not_eq_true', List.any_eq_false,
        Bool.and_eq_true, bne_iff_ne, ne_eq, beq_iff_eq, not_and]
      intro x _ hx h
      exact hx h.symm
    · have hmem : c.1 ∈ caches.map Prod.fst := List.mem_map.mpr ⟨c, hc, rfl⟩
      have hany : (caches.map Prod.fst).any (fun n => n != CACHE_NAME && c.1 == n) = true := by
        rw [List.any_eq_true]
        exact ⟨c.1, hmem, by simp [hname]⟩
      simp [hany, hname]
  refine ⟨?_, ?_, rfl⟩
  · cases h : activate store
    rw [h] at hcaches
    simp only at hcaches
    rw [hcaches]
  · simp only [CacheStorage.keys, hcaches]
    rw [List.filter_map]
    rfl

theorem offlineFallback_of_accept (store : CacheStorage) (request : Request) (accept : String)
    (haccept : request.accept = some accept) :
    offlineFallback store request =
      .ok (if includes accept "text/html" = true then store.«match» "GET" "/index.html"
           else none) := by
  unfold offlineFallback
  rw [haccept]
  by_cases h : includes accept "text/html" = true <;> simp [h]

/-- C15 fails in the code: for an intercepted request that carries no `Accept` header,
when the cache lookup is rejected, or misses and the network fetch is rejected, the
`catch` callback calls `includes` on `null`, and the promise given to `respondWith` is
rejected with a `TypeError`. -/
theorem fetch_fallback_without_accept_rejects {ε : Type} (store : CacheStorage)
    (request : Request) (lookupFails : Bool) (network : Except ε Response)
    (hskip : skipped request = false) (haccept : request.accept = none)
    (hfail : lookupFails = true ∨
      (store.«match» request.method request.url = none ∧ ∃ e, network = .error e)) :
    onFetch store request lookupFails network = some (store, .error .typeError) := by
  unfold onFetch
  rcases hfail with hlookup | ⟨hmiss, e, hnet⟩
  · simp [hskip, hlookup, offlineFallback, haccept]
  · cases lookupFails with
    | true => simp [hskip, offlineFallback, haccept]
    | false => simp [hskip, hmiss, hnet, offlineFallback, haccept]

/-- A `GET` of `/google-chats.html` without an `Accept` header, an empty cache storage
and a network that is down. -/
theorem fetch_fallback_without_accept_rejects_witness :
    onFetch { caches := [] }
        { method := "GET", url := "/google-chats.html", accept := none } false
        (Except.error JsError.typeError : Except JsError Response) =
      some ({ caches := [] }, .error .typeError) :=
  fetch_fallback_without_accept_rejects { caches := [] }
    { method := "GET", url := "/google-chats.html", accept := none } false
    (Except.error JsError.typeError : Except JsError Response) (by decide) rfl
    (Or.inr ⟨by decide, JsError.typeError, rfl⟩)

end ServiceWorker

end GoogleChats
